import Mathlib

/-!
# Verification of the dash-platformer movement core

A shallow embedding of the player/physics/session core of the
dash-platformer repository (`app.py`, `level_io.py`) together with proofs
about its claimed behaviour.

Modelling conventions:

* Python floats are idealised as exact rationals (`ℚ`).  All constants of
  the program are decimal literals, represented here exactly.
* Rational arithmetic is performed through the helper functions `qadd`,
  `qsub`, `qmul`, `qdiv`, `qabs`, `qfloor` below, which compute with
  `mkRat` (kept reducible so that concrete runs of the embedded code can
  be evaluated by `decide`).  Bridge lemmas prove that these helpers agree
  with the ordinary field operations on `ℚ`, so symbolic reasoning can use
  ordinary algebra.
* `pygame.Rect` is a quadruple of integers; `Rect.colliderect` is the
  strict-overlap test (every rectangle constructed by the embedded code
  has positive width and height, for which pygame's normalisation is the
  identity).  `Rect.inflate` keeps the centre using truncating division
  by two, as pygame does.
* The tile grid is a `List (List Char)`, row-major, exactly as
  `Game.reset` builds it from the level rows.
* Purely decorative state (particle spawns, the dash trail, the visual
  tilt) is omitted: no claimed behaviour reads it, and the program's only
  use of randomness is inside it.  Everything else in `Player.update`,
  the collision callbacks and the relevant parts of `Game.update` is
  embedded faithfully, in source order.
-/

set_option maxRecDepth 40000

/-! ## Exact rational arithmetic helpers

`Rat.add`/`Rat.mul`/`Rat.sub`/`Rat.inv` are `@[irreducible]`, which blocks
`decide`-style evaluation of the embedded program.  These helpers compute
the same values through the reducible `mkRat`/`Rat.divInt` constructors.
-/

/-- Addition on `ℚ` via `mkRat` (agrees with `+`, see `qadd_eq`). -/
def qadd (a b : ℚ) : ℚ := mkRat (a.num * b.den + b.num * a.den) (a.den * b.den)

/-- Negation on `ℚ` via `mkRat` (agrees with `-·`, see `qneg_eq`). -/
def qneg (a : ℚ) : ℚ := mkRat (-a.num) a.den

/-- Subtraction on `ℚ` via `mkRat` (agrees with `-`, see `qsub_eq`). -/
def qsub (a b : ℚ) : ℚ := mkRat (a.num * b.den - b.num * a.den) (a.den * b.den)

/-- Multiplication on `ℚ` via `mkRat` (agrees with `*`, see `qmul_eq`). -/
def qmul (a b : ℚ) : ℚ := mkRat (a.num * b.num) (a.den * b.den)

/-- Division on `ℚ` via `Rat.divInt` (agrees with `/`, see `qdiv_eq`). -/
def qdiv (a b : ℚ) : ℚ := Rat.divInt (a.num * b.den) (a.den * b.num)

/-- Python `abs` on floats, idealised on `ℚ`. -/
def qabs (a : ℚ) : ℚ := if a < 0 then qneg a else a

/-- `⌊a⌋` computed on the numerator/denominator (agrees with `Int.floor`). -/
def qfloor (a : ℚ) : ℤ := a.num / (a.den : ℤ)

/-- The integer `n` as a rational, via `mkRat`. -/
def qofInt (n : ℤ) : ℚ := mkRat n 1

/-- Python `int()` applied to a float: truncation toward zero. -/
def pyInt (q : ℚ) : ℤ := if 0 ≤ q then qfloor q else -qfloor (qneg q)

/-- `clamp` from `app.py` (line 107): clamp `v` into `[a, b]`. -/
def clampQ (v a b : ℚ) : ℚ := if v < a then a else if v > b then b else v

/-- Python `math.copysign m v` for our uses: `|m|` carrying the sign of `v`
(`copysign` with a float second argument treats `0.0` as positive). -/
def qcopysign (m v : ℚ) : ℚ := if v < 0 then qneg (qabs m) else qabs m

/-! ## Constants of `app.py` (lines 17–64), exactly as written -/

def TILE : ℤ := 48

def GRAVITY : ℚ := 2500
def MAX_FALL : ℚ := 1600
def ACCEL : ℚ := 4200
def AIR_ACCEL : ℚ := 2600
def FRICTION : ℚ := 2800
def MAX_SPEED : ℚ := 360

def JUMP_VEL : ℚ := -900
def JUMP_CUT : ℚ := mkRat 21 50          -- 0.42
def COYOTE_TIME : ℚ := mkRat 3 25        -- 0.12
def JUMP_BUFFER : ℚ := mkRat 3 25        -- 0.12

def DASH_SPEED : ℚ := 1150
def DASH_TIME : ℚ := mkRat 7 50          -- 0.14
def DASH_COOLDOWN : ℚ := mkRat 11 10     -- 1.1
def INVINCIBLE_ON_DASH : ℚ := mkRat 3 25 -- 0.12

def SPRINT_SPEED_MULT : ℚ := mkRat 27 20 -- 1.35
def SPRINT_ACCEL_MULT : ℚ := mkRat 5 4   -- 1.25
def SPRINT_JUMP_MULT : ℚ := mkRat 23 20  -- 1.15

/-- `SKID_TRIGGER_SPEED = MAX_SPEED * SPRINT_SPEED_MULT * 0.60`. -/
def SKID_TRIGGER_SPEED : ℚ := qmul (qmul MAX_SPEED SPRINT_SPEED_MULT) (mkRat 3 5)
def SKID_TIME : ℚ := mkRat 9 50          -- 0.18
def SKID_ACCEL_MULT : ℚ := mkRat 1 4     -- 0.25
def SKID_FRICTION_MULT : ℚ := mkRat 11 10 -- 1.10

def CROUCH_SPEED_MULT : ℚ := mkRat 11 20 -- 0.55
def CROUCH_ACCEL_MULT : ℚ := mkRat 3 5   -- 0.60
def H_STAND : ℤ := 52
def H_CROUCH : ℤ := 34
def H_STAND_BIG : ℤ := 70
def H_CROUCH_BIG : ℤ := 46

/-- `CROUCH_SLIDE_TRIGGER_SPEED = MAX_SPEED * SPRINT_SPEED_MULT * 0.65` (= 315.9). -/
def CROUCH_SLIDE_TRIGGER_SPEED : ℚ := qmul (qmul MAX_SPEED SPRINT_SPEED_MULT) (mkRat 13 20)
def CROUCH_SLIDE_TIME_BASE : ℚ := mkRat 7 25 -- 0.28
def CROUCH_SLIDE_DECEL_BASE : ℚ := 5200
def CROUCH_SLIDE_MIN_DIST : ℚ := 90

/-! ## pygame rectangles -/

/-- A `pygame.Rect`: integer position and extent. -/
structure Rect where
  x : ℤ
  y : ℤ
  w : ℤ
  h : ℤ
deriving DecidableEq

def Rect.left (r : Rect) : ℤ := r.x
def Rect.right (r : Rect) : ℤ := r.x + r.w
def Rect.top (r : Rect) : ℤ := r.y
def Rect.bottom (r : Rect) : ℤ := r.y + r.h

/-- Truncating (toward-zero) division by 2, as C integer division in
pygame's `inflate` (all inflation amounts used by the program are even,
so this matters only for sign conventions). -/
def tdiv2 (a : ℤ) : ℤ := if 0 ≤ a then a / 2 else -((-a) / 2)

/-- `pygame.Rect.inflate(dx, dy)`: grow around the centre. -/
def Rect.inflate (r : Rect) (dx dy : ℤ) : Rect :=
  ⟨r.x - tdiv2 dx, r.y - tdiv2 dy, r.w + dx, r.h + dy⟩

/-- `pygame.Rect.colliderect`: strict rectangle overlap.  (pygame
normalises negative extents and never collides degenerate rectangles;
every rectangle built by the embedded code has positive width and
height, for which this strict test is exactly pygame's.) -/
def Rect.collide (a b : Rect) : Bool :=
  decide (a.x < b.x + b.w ∧ b.x < a.x + a.w ∧ a.y < b.y + b.h ∧ b.y < a.y + a.h)

/-- The pixel square of tile `(tx, ty)`:
`pygame.Rect(tx*TILE, ty*TILE, TILE, TILE)`. -/
def tileRect (tx ty : ℤ) : Rect := ⟨tx * TILE, ty * TILE, TILE, TILE⟩

/-! ## The tile grid and `tiles_in_aabb` -/

/-- The runtime tile grid: `Game.reset` builds `[list(row) for row in LEVEL]`. -/
abbrev Tilemap := List (List Char)

/-- Read a cell; out-of-range reads return the empty code `' '` (callers
of this helper only use in-bounds indices). -/
def cellAt (tm : Tilemap) (tx ty : ℤ) : Char :=
  (tm.getD ty.toNat []).getD tx.toNat ' '

/-- Write a cell (`self.tilemap[ty][tx] = c`); all call sites pass
in-bounds indices obtained from the tile query. -/
def setCell (tm : Tilemap) (tx ty : ℤ) (c : Char) : Tilemap :=
  tm.set ty.toNat ((tm.getD ty.toNat []).set tx.toNat c)

/-- The integers from `lo` to `hi` inclusive (Python `range(lo, hi + 1)`). -/
def intRange (lo hi : ℤ) : List ℤ :=
  (List.range (hi + 1 - lo).toNat).map (fun (i : ℕ) => lo + (i : ℤ))

/-- `tiles_in_aabb` (`app.py` lines 130–140): enumerate the non-empty
cells of the clipped tile range covered by `rect`, in row-major order.
A pure query: the Python generator never writes the grid. -/
def tiles_in_aabb (tm : Tilemap) (rect : Rect) : List (ℤ × ℤ × Char) :=
  let min_tx := max 0 (rect.left / TILE)
  let max_tx := min (((tm.headD []).length : ℤ) - 1) (rect.right / TILE)
  let min_ty := max 0 (rect.top / TILE)
  let max_ty := min ((tm.length : ℤ) - 1) (rect.bottom / TILE)
  (intRange min_ty max_ty).flatMap (fun ty =>
    (intRange min_tx max_tx).filterMap (fun tx =>
      let ch := cellAt tm tx ty
      if ch ≠ ' ' then some (tx, ty, ch) else none))

/-- `solid` (`app.py` line 142). -/
def solid (ch : Char) : Bool :=
  decide (ch = 'X' ∨ ch = '=' ∨ ch = 'B' ∨ ch = 'S' ∨ ch = 'Q')

/-- The spec-level notion of a tile square intersecting a query
rectangle, as realised by `tiles_in_aabb`'s index ranges: the half-open
pixel span `[TILE*t, TILE*(t+1))` of the tile meets the closed span
`[lo, hi]` of the rectangle on that axis. -/
def tileSpanMeets (t lo hi : ℤ) : Prop := TILE * t ≤ hi ∧ lo < TILE * t + TILE

instance (t lo hi : ℤ) : Decidable (tileSpanMeets t lo hi) := by
  unfold tileSpanMeets; infer_instance

/-! ## The player and its helpers -/

/-- The player's `form` (`"small"`/`"big"` strings in Python). -/
inductive Form where
  | small : Form
  | big : Form
deriving DecidableEq

/-- The gameplay-relevant state of `Player` (`app.py` lines 166–204).
The decorative `trail` deque and `visual_tilt` are omitted (nothing the
claims mention reads them). -/
structure PlayerState where
  x : ℚ
  y : ℚ
  w : ℤ
  h_stand : ℤ
  h_crouch : ℤ
  h : ℤ
  form : Form
  vx : ℚ
  vy : ℚ
  on_ground : Bool
  since_ground : ℚ
  jump_buf : ℚ
  facing : ℤ
  dash_t : ℚ
  dash_cd : ℚ
  inv : ℚ
  dash_dir : ℤ
  sprint : Bool
  crouch : Bool
  dash_lock : Bool
  dash_unlocked : Bool
  skid_t : ℚ
  skid_dir : ℤ
  crouch_slide_t : ℚ
  crouch_slide_decel : ℚ
  crouch_slide_dir : ℤ
  coins : ℕ
  power_flash : ℚ
deriving DecidableEq

/-- The per-frame edge/held input signals `Game.update` derives and
passes to the player (`app.py` lines 898–909); the directional keys are
kept raw, as `Player.input_axis` reads them itself. -/
structure Keys where
  left : Bool
  right : Bool
  shift_held : Bool
  dash_pressed : Bool
  jump_pressed : Bool
  jump_released : Bool
  crouch_held : Bool
  crouch_pressed : Bool
deriving DecidableEq

/-- A spawned mushroom power-up (`MushroomItem.__init__`, lines 552–562);
`SPEED`/`EMERGE_SPEED` class constants are only used by its own motion,
which no claim depends on; the fields the session reads are kept. -/
structure Mushroom where
  x : ℚ
  w : ℤ
  h : ℤ
  target_y : ℚ
  y : ℚ
  vx : ℚ
  vy : ℚ
  direction : ℤ
  emerging : Bool
  remove : Bool
deriving DecidableEq

/-- The slice of `Game` state touched by the player update and the tile
callbacks: the grid, the live items, the session coin counter, and the
player itself. -/
structure World where
  player : PlayerState
  tilemap : Tilemap
  items : List Mushroom
  coins_got : ℕ
deriving DecidableEq

/-- `Player.rect` (lines 206–208) at an arbitrary position/height:
`pygame.Rect(int(x - w/2), int(y - h), w, h)`. -/
def playerRectAt (x y : ℚ) (w h : ℤ) : Rect :=
  ⟨pyInt (qsub x (qdiv (qofInt w) 2)), pyInt (qsub y (qofInt h)), w, h⟩

/-- `Player.rect` of the current state. -/
def playerRect (p : PlayerState) : Rect := playerRectAt p.x p.y p.w p.h

/-- `Player.input_axis` (lines 212–217) without the facing update: the
axis value in `{-1, 0, 1}`. -/
def axisOf (keys : Keys) : ℚ :=
  qadd (if keys.left then (-1 : ℚ) else 0) (if keys.right then (1 : ℚ) else 0)

/-- The facing update performed inside `Player.input_axis`:
`if ax != 0: self.facing = 1 if ax > 0 else -1`. -/
def faceUpdate (ax : ℚ) (p : PlayerState) : PlayerState :=
  { p with facing := if ax ≠ 0 then (if ax > 0 then 1 else -1) else p.facing }

/-- `Player._can_stand` (lines 219–225): the standing-height hitbox,
queried with a `(-8, -2)`-shrunk rectangle; a listed tile blocks if it is
a gate/spike/goal or solid and collides with the unshrunk hitbox. -/
def canStand (tm : Tilemap) (p : PlayerState) : Bool :=
  let stand_rect := playerRectAt p.x p.y p.w p.h_stand
  (tiles_in_aabb tm (stand_rect.inflate (-8) (-2))).all (fun t =>
    if (t.2.2 = '|' ∨ t.2.2 = '^' ∨ t.2.2 = 'F') ∨ solid t.2.2 then
      ! stand_rect.collide (tileRect t.1 t.2.1)
    else true)

/-- `Player._rect_fits` (lines 227–235): like `_can_stand` but for an
arbitrary height, and trivially true when no tilemap is supplied. -/
def rectFits (otm : Option Tilemap) (p : PlayerState) (height : ℤ) : Bool :=
  match otm with
  | none => true
  | some tm =>
    let rect := playerRectAt p.x p.y p.w height
    (tiles_in_aabb tm (rect.inflate (-8) (-2))).all (fun t =>
      if (t.2.2 = '|' ∨ t.2.2 = '^' ∨ t.2.2 = 'F') ∨ solid t.2.2 then
        ! rect.collide (tileRect t.1 t.2.1)
      else true)

/-- The `form == "small"` branch of `Player.set_form` (lines 253–261):
the crouch flag is re-evaluated against the small heights (`_rect_fits`
reads only `x`, `y`, `w`, so the preceding field assignments do not
affect it). -/
def smallFormUpdate (otm : Option Tilemap) (p : PlayerState) : PlayerState :=
  let crouch1 : Bool := if p.crouch ∧ rectFits otm p H_CROUCH = false then false else p.crouch
  let crouch2 : Bool := if crouch1 = false ∧ rectFits otm p H_STAND = false then true else crouch1
  { p with form := Form.small, h_stand := H_STAND, h_crouch := H_CROUCH,
           crouch := crouch2, h := if crouch2 then H_CROUCH else H_STAND }

/-- `Player.set_form` (lines 237–262): returns the Python result
(`True`/`False`) together with the updated player.  The method's local
mutations are inlined: `can_stand` is `_rect_fits(tilemap, H_STAND_BIG)`
(which reads only `x`, `y`, `w`, so the interleaved field assignments do
not affect it), and the final `h` assignment is folded into each branch. -/
def set_form (form : Form) (otm : Option Tilemap) (p : PlayerState) :
    Bool × PlayerState :=
  if form = p.form then (true, p)
  else
    match form with
    | Form.big =>
      if rectFits otm p H_STAND_BIG = false ∧ rectFits otm p H_CROUCH_BIG = false then
        (false, p)
      else if rectFits otm p H_STAND_BIG ∧ p.crouch = false then
        (true, { p with form := Form.big, h_stand := H_STAND_BIG,
                        h_crouch := H_CROUCH_BIG, h := H_STAND_BIG })
      else
        (true, { p with form := Form.big, h_stand := H_STAND_BIG,
                        h_crouch := H_CROUCH_BIG, crouch := true, h := H_CROUCH_BIG })
    | Form.small =>
      (true, smallFormUpdate otm p)

/-- `Player.collect_powerup` for `kind == "mushroom"` (lines 264–279);
particle spawning omitted, and the `already_big`/`grew` locals are
inlined.  Returns the Python result and the updated player. -/
def collect_powerup_mushroom (tm : Tilemap) (p : PlayerState) : Bool × PlayerState :=
  if (set_form Form.big (some tm) p).1 then
    (true, { (set_form Form.big (some tm) p).2 with
              power_flash := if decide (p.form = Form.big) = false then mkRat 3 5 else mkRat 3 10,
              inv := max (set_form Form.big (some tm) p).2.inv (mkRat 2 5) })
  else (false, (set_form Form.big (some tm) p).2)

/-- `Player._set_crouch` (lines 298–305). -/
def set_crouch (want_crouch : Bool) (tm : Tilemap) (p : PlayerState) : PlayerState :=
  if want_crouch ∧ p.crouch = false then { p with h := p.h_crouch, crouch := true }
  else if want_crouch = false ∧ p.crouch then
    (if canStand tm p then { p with h := p.h_stand, crouch := false }
     else { p with crouch := true })
  else p

/-- `Player.try_jump` (lines 307–312). -/
def try_jump (p : PlayerState) : Bool × PlayerState :=
  if (p.on_ground ∨ p.since_ground ≤ COYOTE_TIME) ∧ p.jump_buf > 0 then
    (true, { p with
              vy := qmul JUMP_VEL (if p.sprint then SPRINT_JUMP_MULT else 1),
              on_ground := false, since_ground := 999, jump_buf := 0 })
  else (false, p)

/-- `Player.start_dash` (lines 314–319). -/
def start_dash (p : PlayerState) : PlayerState :=
  let dir : ℤ := if p.facing ≠ 0 then p.facing else 1
  { p with
    dash_t := DASH_TIME, dash_cd := DASH_COOLDOWN, inv := INVINCIBLE_ON_DASH,
    dash_dir := dir,
    vx := qmul (qofInt dir) DASH_SPEED,
    vy := if p.vy > 0 then 0 else p.vy,
    sprint := false }

/-! ## `Player.update` — phase 1: timers, input, crouch, slide, dash,
sprint, skid (lines 330–402) -/

/-- The timer ticks at the top of `Player.update` (lines 331–338); the
eight Python `if` statements touch independent fields. -/
def tickTimers (dt : ℚ) (p : PlayerState) : PlayerState :=
  { p with
    since_ground := if p.since_ground < 10 then qadd p.since_ground dt else p.since_ground,
    jump_buf := if p.jump_buf > 0 then qsub p.jump_buf dt else p.jump_buf,
    dash_t := if p.dash_t > 0 then qsub p.dash_t dt else p.dash_t,
    dash_cd := if p.dash_cd > 0 then qsub p.dash_cd dt else p.dash_cd,
    inv := if p.inv > 0 then qsub p.inv dt else p.inv,
    skid_t := if p.skid_t > 0 then qsub p.skid_t dt else p.skid_t,
    crouch_slide_t := if p.crouch_slide_t > 0 then qsub p.crouch_slide_t dt else p.crouch_slide_t,
    power_flash := if p.power_flash > 0 then max 0 (qsub p.power_flash dt) else p.power_flash }

/-- Crouch resolution (lines 360–364): desire from input, forced crouch
when standing no longer fits, then `_set_crouch`. -/
def crouchResolve (keys : Keys) (tm : Tilemap) (p : PlayerState) : PlayerState :=
  let want_crouch : Bool := decide (p.dash_t ≤ 0) && keys.crouch_held
  let want_crouch : Bool :=
    if want_crouch = false ∧ p.crouch ∧ canStand tm p = false then true else want_crouch
  set_crouch want_crouch tm p

/-- The dynamic deceleration of a crouch slide (line 370–371):
`min(CROUCH_SLIDE_DECEL_BASE, v0² / (2 * max(1, CROUCH_SLIDE_MIN_DIST)))`. -/
def crouchSlideDecelOf (v0 : ℚ) : ℚ :=
  min CROUCH_SLIDE_DECEL_BASE (qdiv (qmul v0 v0) (qmul 2 (max 1 CROUCH_SLIDE_MIN_DIST)))

/-- The slide duration (lines 372–373):
`max(CROUCH_SLIDE_TIME_BASE, v0 / max(1, decel))`. -/
def crouchSlideTimeOf (decel v0 : ℚ) : ℚ :=
  max CROUCH_SLIDE_TIME_BASE (qdiv v0 (max 1 decel))

/-- The crouch-slide trigger (lines 366–379); `prev_crouch`/`prev_sprint`
are the snapshots taken at lines 357–358, before crouch resolution.
Start-of-slide dust particles omitted. -/
def slideTrigger (keys : Keys) (prev_crouch prev_sprint : Bool) (p : PlayerState) :
    PlayerState :=
  if keys.crouch_pressed ∧ prev_crouch = false ∧ p.crouch ∧ p.on_ground ∧
      prev_sprint ∧ p.dash_t ≤ 0 ∧ qabs p.vx ≥ CROUCH_SLIDE_TRIGGER_SPEED then
    let v0 := qabs p.vx
    let decel := crouchSlideDecelOf v0
    { p with
      crouch_slide_decel := decel,
      crouch_slide_t := crouchSlideTimeOf decel v0,
      crouch_slide_dir := if p.vx ≥ 0 then 1 else -1 }
  else p

/-- Forced crouch while a slide is running (lines 381–383). -/
def slideForce (p : PlayerState) : PlayerState :=
  if p.crouch_slide_t > 0 then { p with h := p.h_crouch, crouch := true } else p

/-- The dash-trigger condition (lines 386–387). -/
def dashCond (keys : Keys) (tm : Tilemap) (p : PlayerState) : Prop :=
  p.dash_unlocked = true ∧ keys.dash_pressed = true ∧ p.dash_cd ≤ 0 ∧ p.dash_t ≤ 0 ∧
    p.dash_lock = false ∧ p.crouch = false ∧ canStand tm p = true

instance (keys : Keys) (tm : Tilemap) (p : PlayerState) : Decidable (dashCond keys tm p) := by
  unfold dashCond; infer_instance

/-- The dash trigger (lines 385–388): `start_dash` plus setting the dash
lock. -/
def dashTrigger (keys : Keys) (tm : Tilemap) (p : PlayerState) : PlayerState :=
  if dashCond keys tm p then { start_dash p with dash_lock := true } else p

/-- Sprint resolution and dash-lock release (lines 390–395).  The two
Python statements assign disjoint fields and the second reads only
`shift_held`, so they are written as one record update. -/
def sprintResolve (keys : Keys) (p : PlayerState) : PlayerState :=
  { p with
    sprint :=
      if p.dash_t ≤ 0 ∧ keys.shift_held ∧ p.crouch = false then true
      else if keys.shift_held = false ∨ p.crouch then false
      else p.sprint,
    dash_lock := if keys.shift_held = false then false else p.dash_lock }

/-- The skid trigger (lines 397–402); `input_dir`/`moving_dir` are the
snapshots computed at lines 354–355.  Skid dust omitted. -/
def skidResolve (input_dir moving_dir : ℤ) (p : PlayerState) : PlayerState :=
  if p.on_ground ∧ p.sprint ∧ p.dash_t ≤ 0 ∧ input_dir ≠ 0 ∧ moving_dir ≠ 0 ∧
      input_dir ≠ moving_dir ∧ qabs p.vx ≥ SKID_TRIGGER_SPEED ∧ p.skid_t ≤ 0 then
    { p with skid_t := SKID_TIME, skid_dir := moving_dir, facing := input_dir }
  else p

/-- Lines 330–383 of `Player.update`: the state reaching the dash-trigger
check. -/
def preDashState (dt : ℚ) (keys : Keys) (tm : Tilemap) (p0 : PlayerState) : PlayerState :=
  let p1 := tickTimers dt p0
  let p2 := faceUpdate (axisOf keys) p1
  let p3 := crouchResolve keys tm p2
  let p4 := slideTrigger keys p2.crouch p2.sprint p3
  slideForce p4

/-- Lines 330–402 of `Player.update` (everything before the velocity
integration). -/
def playerPhaseA (dt : ℚ) (keys : Keys) (tm : Tilemap) (p0 : PlayerState) : PlayerState :=
  let ax := axisOf keys
  let p2 := faceUpdate ax (tickTimers dt p0)
  let input_dir : ℤ := if ax > 0 then 1 else if ax < 0 then -1 else 0
  let moving_dir : ℤ := if p2.vx > 20 then 1 else if p2.vx < -20 then -1 else 0
  let p5 := preDashState dt keys tm p0
  let p6 := dashTrigger keys tm p5
  let p7 := sprintResolve keys p6
  skidResolve input_dir moving_dir p7

/-! ## `Player.update` — phase 2: horizontal velocity, clamp, gravity,
jump buffering (lines 404–450) -/

/-- Lines 404–450 of `Player.update`: horizontal acceleration/friction
(404–437; the dash branch only records the decorative trail), the
max-speed clamp (439–444), gravity, the jump-buffer arm and the jump cut
(446–450).  The `speed_mult` accumulated at lines 409–414 is never read
(the clamp recomputes its own `max_speed`), so only `accel_mult` appears. -/
def playerPhaseB (dt ax : ℚ) (keys : Keys) (p : PlayerState) : PlayerState :=
  let p : PlayerState :=
    if p.dash_t > 0 then p
    else
      let accel_base := if p.on_ground then ACCEL else AIR_ACCEL
      let accel_mult := qmul (if p.sprint then SPRINT_ACCEL_MULT else 1)
        (if p.crouch ∧ p.crouch_slide_t ≤ 0 then CROUCH_ACCEL_MULT else 1)
      let accel := qmul accel_base accel_mult
      let accel := if p.skid_t > 0 ∧ p.on_ground then qmul accel SKID_ACCEL_MULT else accel
      let vx :=
        if p.skid_t > 0 ∧ p.on_ground then
          qsub p.vx (qcopysign (qmul (qmul FRICTION SKID_FRICTION_MULT) dt) p.vx)
        else p.vx
      let vx :=
        if p.crouch_slide_t > 0 ∧ p.on_ground then
          let dec := qmul p.crouch_slide_decel dt
          if qabs vx ≤ dec then 0 else qsub vx (qcopysign dec vx)
        else
          let vx := qadd vx (qmul (qmul accel ax) dt)
          if qabs ax < mkRat 1 100 ∧ p.on_ground then
            (if qabs vx ≤ qmul FRICTION dt then 0
             else qsub vx (qmul (qmul FRICTION dt) (if vx > 0 then 1 else -1)))
          else vx
      { p with vx := vx }
  let p : PlayerState :=
    if p.dash_t ≤ 0 then
      let max_speed := MAX_SPEED
      let max_speed := if p.sprint then qmul max_speed SPRINT_SPEED_MULT else max_speed
      let max_speed :=
        if p.crouch ∧ p.crouch_slide_t ≤ 0 then qmul max_speed CROUCH_SPEED_MULT else max_speed
      { p with vx := clampQ p.vx (qneg max_speed) max_speed }
    else p
  let p : PlayerState := { p with vy := clampQ (qadd p.vy (qmul GRAVITY dt)) (-9999) MAX_FALL }
  let p : PlayerState := if keys.jump_pressed then { p with jump_buf := JUMP_BUFFER } else p
  if keys.jump_released then
    (if p.vy < 0 then { p with vy := qmul p.vy JUMP_CUT } else p)
  else p

/-! ## Tile-grid mutation callbacks of `Game` -/

/-- `Game.destroy_gate` (lines 831–833). -/
def destroy_gate (w : World) (tx ty : ℤ) : World :=
  if cellAt w.tilemap tx ty = '|' then { w with tilemap := setCell w.tilemap tx ty ' ' }
  else w

/-- The item spawned by `MushroomItem(spawn_x, block_top, direction)`
(lines 552–562). -/
def mushroomSpawn (spawn_x block_top : ℚ) (direction : ℤ) : Mushroom :=
  { x := spawn_x, w := 40, h := 40, target_y := block_top,
    y := qadd block_top 40, vx := 0, vy := 0,
    direction := if direction ≥ 0 then 1 else -1,
    emerging := true, remove := false }

/-- `Game.hit_block` (lines 835–879); particle spawns omitted.  Mutates
the grid, item list, session coin counter and the player's coin count. -/
def hit_block (w : World) (tx ty : ℤ) (ch : Char) : World :=
  if ty < 0 ∨ ty ≥ (w.tilemap.length : ℤ) then w
  else if tx < 0 ∨ tx ≥ ((w.tilemap.headD []).length : ℤ) then w
  else if cellAt w.tilemap tx ty ≠ ch then w
  else
    let spawn_x : ℚ := qadd (qofInt (tx * TILE)) (qdiv (qofInt TILE) 2)
    let block_top : ℚ := qofInt (ty * TILE)
    if ch = 'B' then
      let direction : ℤ := if w.player.x ≥ spawn_x then -1 else 1
      { w with
        tilemap := setCell w.tilemap tx ty 'X',
        items := w.items ++ [mushroomSpawn spawn_x block_top direction] }
    else if ch = 'Q' then
      { w with
        tilemap := setCell w.tilemap tx ty 'X',
        coins_got := w.coins_got + 1,
        player := { w.player with coins := w.player.coins + 1 } }
    else if ch = 'S' then
      if w.player.form ≠ Form.big then w
      else { w with tilemap := setCell w.tilemap tx ty ' ' }
    else w

/-! ## `Player.update` — phase 3: movement and collision (lines 452–504) -/

/-- The body of the horizontal collision loop (lines 459–473), folded
over the queried tiles.  `r` is the rect computed once at line 457 and
never rebound inside the Python loop; the fold state is
`(x, vx, collided_gate)`. -/
def horizScan (dash_active : Bool) (pw : ℤ) (r : Rect)
    (tiles : List (ℤ × ℤ × Char)) (x vx : ℚ) :
    ℚ × ℚ × Option (ℤ × ℤ) :=
  tiles.foldl
    (fun st t =>
      let (tx, ty, ch) := t
      let tile_r := tileRect tx ty
      let st :=
        if ch = '|' then
          if dash_active then (st.1, st.2.1, some (tx, ty))
          else if r.collide tile_r then
            (if st.2.1 > 0 then qsub (qofInt tile_r.left) (qdiv (qofInt pw) 2)
             else if st.2.1 < 0 then qadd (qofInt tile_r.right) (qdiv (qofInt pw) 2)
             else st.1, (0 : ℚ), st.2.2)
          else st
        else st
      if solid ch then
        if r.collide tile_r then
          (if st.2.1 > 0 then qsub (qofInt tile_r.left) (qdiv (qofInt pw) 2)
           else if st.2.1 < 0 then qadd (qofInt tile_r.right) (qdiv (qofInt pw) 2)
           else st.1, (0 : ℚ), st.2.2)
        else st
      else st)
    (x, vx, none)

/-- The query rectangle of the horizontal collision pass: the player
rect after `x += vx*dt`, inflated by `(2, -2)` (lines 456–459). -/
def horizQueryRect (dt : ℚ) (p : PlayerState) : Rect :=
  (playerRectAt (qadd p.x (qmul p.vx dt)) p.y p.w p.h).inflate 2 (-2)

/-- Lines 452–482 of `Player.update`: clear `on_ground`, move
horizontally, collide against gates/solids, and destroy the recorded
gate (the gate-burst particles are omitted).  The `on_ground = False`
assignment of line 453 precedes the horizontal pass in the source but
nothing in the pass reads it, so it is folded into the same player
update. -/
def applyGate (w : World) : Option (ℤ × ℤ) → World
  | some g => destroy_gate w g.1 g.2
  | none => w

def playerMoveH (dt : ℚ) (w : World) : World :=
  let x1 := qadd w.player.x (qmul w.player.vx dt)
  let r := playerRectAt x1 w.player.y w.player.w w.player.h
  let scanned := horizScan (decide (w.player.dash_t > 0)) w.player.w r
    (tiles_in_aabb w.tilemap (r.inflate 2 (-2))) x1 w.player.vx
  applyGate { w with player :=
    { w.player with on_ground := false, x := scanned.1, vx := scanned.2.1 } } scanned.2.2

/-- The body of one vertical collision pass (lines 492–504), folded over
the tiles queried from the post-move rect.  Unlike the horizontal loop,
the Python code rebinds `r = self.rect` after each snap, so the collision
test always uses the current rect; `prev` is the pre-move rect of this
substep.  `hit_block` may mutate the grid, but only at already-visited
cells, so folding over the pre-computed query list is exact. -/
def vertScan (dash_active : Bool) (step_dy : ℚ) (prev : Rect)
    (tiles : List (ℤ × ℤ × Char)) (w : World) : World :=
  tiles.foldl
    (fun w t =>
      let (tx, ty, ch) := t
      if ch = '|' ∧ dash_active then w
      else if ch = '|' ∨ solid ch = true then
        let r := playerRect w.player
        let tile_r := tileRect tx ty
        if r.collide tile_r = false then w
        else if step_dy > 0 then
          (if prev.bottom ≤ tile_r.top ∧ r.bottom ≥ tile_r.top then
            { w with player := { w.player with
                y := qofInt tile_r.top, vy := 0,
                on_ground := true, since_ground := 0 } }
           else w)
        else if step_dy < 0 then
          (if prev.top ≥ tile_r.bottom ∧ r.top ≤ tile_r.bottom then
            let w := { w with player := { w.player with
                y := qofInt (tile_r.bottom + w.player.h), vy := 0 } }
            if ch = 'B' ∨ ch = 'S' ∨ ch = 'Q' then hit_block w tx ty ch else w
           else w)
        else w
      else w)
    w

/-- One vertical substep (lines 488–504): record the pre-move rect, move
`y`, query the `(-8, 0)`-inflated rect, and resolve floor/ceiling hits. -/
def vertStepOnce (step_dy : ℚ) (w : World) : World :=
  let prev := playerRect w.player
  let w := { w with player := { w.player with y := qadd w.player.y step_dy } }
  let r := playerRect w.player
  vertScan (decide (w.player.dash_t > 0)) step_dy prev
    (tiles_in_aabb w.tilemap (r.inflate (-8) 0)) w

/-- Lines 484–504 of `Player.update`: the sub-stepped vertical move.
`steps = max(1, int(abs(total_dy) // max(1, TILE // 6)) + 1)`. -/
def playerMoveV (dt : ℚ) (w : World) : World :=
  let total_dy := qmul w.player.vy dt
  let steps : ℕ := max 1 ((qfloor (qdiv (qabs total_dy) (qofInt (max 1 (TILE / 6))))).toNat + 1)
  let step_dy := qdiv total_dy (qofInt (steps : ℤ))
  (List.range steps).foldl (fun w _ => vertStepOnce step_dy w) w

/-- `Player.update` (lines 330–508) on the session slice: phases A and B
on the player, then the horizontal and vertical collision passes (which
may call `Game.destroy_gate` / `Game.hit_block`).  The final visual-tilt
interpolation (lines 506–508) touches only the omitted decorative state. -/
def playerUpdate (dt : ℚ) (keys : Keys) (w : World) : World :=
  let p := playerPhaseA dt keys w.tilemap w.player
  let p := playerPhaseB dt (axisOf keys) keys p
  playerMoveV dt (playerMoveH dt { w with player := p })

/-- Lines 912–913 of `Game.update`: the player update followed by the
only call site of `try_jump`, gated on this frame's `jump_pressed`
edge. -/
def gameStepPlayer (dt : ℚ) (keys : Keys) (w : World) : World :=
  let w := playerUpdate dt keys w
  if keys.jump_pressed then { w with player := (try_jump w.player).2 } else w

/-! ## `Game.update` — mushroom pickups -/

/-- The `'M'` case of the tile scan in `Game.update` (lines 1040–1049):
try to grow; the tile is rewritten to empty in both branches (the
failure branch only differs in the decorative sparks). -/
def mushroomTileStep (w : World) (tx ty : ℤ) : World :=
  if (collect_powerup_mushroom w.tilemap w.player).1 then
    { w with player := (collect_powerup_mushroom w.tilemap w.player).2,
             tilemap := setCell w.tilemap tx ty ' ' }
  else
    { w with player := (collect_powerup_mushroom w.tilemap w.player).2,
             tilemap := setCell w.tilemap tx ty ' ' }

/-- `MushroomItem.rect` (lines 564–566). -/
def mushroomRect (it : Mushroom) : Rect := playerRectAt it.x it.y it.w it.h

/-- The player–item overlap resolution for one item (`Game.update`
lines 919–936): skipped while removed or still emerging; on overlap the
item is removed whether or not the power-up could be applied. -/
def itemPickupStep (w : World) (it : Mushroom) : World × Mushroom :=
  if it.remove ∨ it.emerging then (w, it)
  else if (playerRect w.player).collide (mushroomRect it) then
    (if (collect_powerup_mushroom w.tilemap w.player).1 then
      ({ w with player := (collect_powerup_mushroom w.tilemap w.player).2 },
       { it with remove := true })
     else
      ({ w with player := (collect_powerup_mushroom w.tilemap w.player).2 },
       { it with remove := true }))
  else (w, it)

/-! ## `level_io.py`: the persisted level format -/

/-- Set one cell of a mutable character grid (used by the default-level
builder). -/
def gridSet (g : List (List Char)) (x y : ℕ) (c : Char) : List (List Char) :=
  g.set y ((g.getD y []).set x c)

/-- Set `row[x] = c` for `x ∈ [lo, hi)` (a Python `for x in range(lo, hi)`
loop of single-row assignments). -/
def gridSetRow (g : List (List Char)) (y lo hi : ℕ) (c : Char) : List (List Char) :=
  (List.range (hi - lo)).foldl (fun g i => gridSet g (lo + i) y c) g

/-- `make_default_level` (`level_io.py` lines 13–98) with
`FIRST_PLATFORM_IS_LOW = True`: the fallback level grid. -/
def make_default_level : List (List Char) :=
  let width := 180
  let height := 14
  let ground_y := height - 1
  let g := List.replicate height (List.replicate width ' ')
  let g := gridSetRow g ground_y 0 width 'X'
  let y1 := ground_y - 2
  let g := gridSetRow g y1 6 14 '='
  let g := gridSet g 10 (y1 - 1) 'G'
  let g := gridSet g 7 (y1 - 1) 'M'
  let y2 := ground_y - 4
  let g := gridSetRow g y2 18 28 '='
  let g := gridSet g 22 (y2 - 1) 'G'
  let g := gridSet g 24 (y2 - 2) 'M'
  let g := gridSetRow g ground_y 34 37 ' '
  let g := gridSet g 42 (ground_y - 1) '^'
  let g := gridSetRow g (ground_y - 4) 44 50 '='
  let g := gridSetRow g (ground_y - 5) 44 50 'C'
  let g := gridSetRow g (ground_y - 3) 52 56 '='
  let g := gridSetRow g (ground_y - 5) 58 62 '='
  let g := gridSetRow g (ground_y - 6) 58 62 'C'
  let g := gridSetRow g (ground_y - 2) 68 72 '='
  let g := gridSetRow g (ground_y - 3) 76 80 '='
  let g := gridSet g 78 (ground_y - 1) 'G'
  let g := gridSetRow g (ground_y - 2) 94 102 '='
  let g := gridSet g 98 (ground_y - 3) 'D'
  let g := gridSetRow g (ground_y - 3) 122 132 '='
  let g := gridSetRow g (ground_y - 1) 118 122 '='
  let gx := 128
  let g := gridSet g gx (ground_y - 1) '|'
  let g := gridSet g gx (ground_y - 2) '|'
  let g := gridSetRow g (ground_y - 2) 130 136 '='
  let g := gridSetRow g (ground_y - 3) 130 136 'C'
  let g := gridSet g 124 (ground_y - 3) 'M'
  let g := gridSetRow g ground_y 144 152 ' '
  let g := gridSetRow g (ground_y - 1) 138 142 '='
  let g := gridSetRow g (ground_y - 1) 152 158 '='
  let g := gridSetRow g (ground_y - 3) 154 157 'C'
  let g := gridSet g 160 (ground_y - 1) '^'
  let g := gridSet g 161 (ground_y - 1) '^'
  let g := gridSetRow g (ground_y - 4) 164 169 '='
  let g := gridSetRow g (ground_y - 5) 165 169 'C'
  let g := gridSet g 172 (ground_y - 4) 'F'
  let g := gridSet g 172 (ground_y - 3) 'X'
  let g := gridSet g 172 (ground_y - 2) 'X'
  let g := gridSet g 172 (ground_y - 1) 'X'
  let g := gridSet g 172 ground_y 'X'
  g

/-- Python `str.ljust`: pad on the right with spaces to `width`. -/
def ljust (row : List Char) (width : ℕ) : List Char :=
  row ++ List.replicate (width - row.length) ' '

/-- `_normalise_rows` (`level_io.py` lines 101–110): `None` on an empty
row list or zero maximum width, otherwise every row padded to the
maximum width. -/
def normalise_rows (rows : List (List Char)) : Option (List (List Char)) :=
  if rows = [] then none
  else
    let width := (rows.map List.length).foldr max 0
    if width = 0 then none
    else some (rows.map (fun r => ljust r width))

/-- `save_level` (`level_io.py` lines 170–178), modelled up to JSON
serialisation: the row list written as `data["tiles"]` (JSON round-trips
a list of strings verbatim).  Rows that fail to normalise fall back to
the default level, exactly as in the source. -/
def save_level_tiles (level : List (List Char)) : List (List Char) :=
  match normalise_rows level with
  | some rows => rows
  | none => make_default_level

/-- `_load_level_file` (lines 113–135) applied to a parsed JSON document
`{"tiles": tiles}` as written by `save_level`: Python's
`data.get("tiles") or data.get("level") or data.get("rows")` treats an
empty `tiles` list as missing (and the saved document has no other
keys), then the rows are normalised again. -/
def load_level_tiles (tiles : List (List Char)) : Option (List (List Char)) :=
  if tiles = [] then none
  else normalise_rows tiles

/-! ## Concrete scenario data

States built from `Player.__init__` (lines 167–204; the write-only
`shift_held_prev` field is never read and is omitted), small tile grids,
and input records, used to instantiate the theorems below on concrete
frames. -/

/-- `Player.__init__(x, y)`. -/
def playerInit (x y : ℚ) : PlayerState :=
  { x := x, y := y, w := 36, h_stand := H_STAND, h_crouch := H_CROUCH, h := H_STAND,
    form := Form.small, vx := 0, vy := 0, on_ground := false, since_ground := 0,
    jump_buf := 0, facing := 1, dash_t := 0, dash_cd := 0, inv := 0, dash_dir := 0,
    sprint := false, crouch := false, dash_lock := false, dash_unlocked := false,
    skid_t := 0, skid_dir := 0, crouch_slide_t := 0,
    crouch_slide_decel := CROUCH_SLIDE_DECEL_BASE, crouch_slide_dir := 0,
    coins := 0, power_flash := 0 }

/-- No key active. -/
def keysNone : Keys :=
  { left := false, right := false, shift_held := false, dash_pressed := false,
    jump_pressed := false, jump_released := false, crouch_held := false,
    crouch_pressed := false }

/-- A 60 FPS frame time. -/
def dt60 : ℚ := mkRat 1 60

/-- A 30 FPS (lagged) frame time; `dt = clock.tick(FPS)/1000` is not
bounded below, so slow frames of this length occur. -/
def dt30 : ℚ := mkRat 1 30

/-- A 10 FPS (heavily lagged) frame time. -/
def dt10 : ℚ := mkRat 1 10

/-- An empty row of the given width. -/
def blankRow (n : ℕ) : List Char := List.replicate n ' '

/-- Flat ground: rows of empty space over one row of `'X'`. -/
def flatMap (width : ℕ) : Tilemap :=
  [blankRow width, blankRow width, blankRow width, List.replicate width 'X']

/-- C1 scenario: a player falling past the coyote window with a stale
jump buffer (jump was pressed 0.08 s ago), about to land this frame. -/
def c1World : World :=
  { player := { playerInit 100 142 with
                  on_ground := false, since_ground := mkRat 1 5,
                  jump_buf := mkRat 2 25, vy := 300 },
    tilemap := flatMap 5, items := [], coins_got := 0 }

/-- C2 scenario: a grounded sprinting player at `vx = 324` (above the
crouch-slide trigger threshold 315.9). -/
def c2World : World :=
  { player := { playerInit 160 144 with on_ground := true, sprint := true, vx := 324 },
    tilemap := flatMap 8, items := [], coins_got := 0 }

/-- C2 scenario inputs: the frame that presses crouch, and the following
frames that merely hold it. -/
def keysCrouchPress : Keys := { keysNone with crouch_held := true, crouch_pressed := true }

def keysCrouchHold : Keys := { keysNone with crouch_held := true }

/-- C3 scenario: dash unlocked and ready, player moving upward
(`vy = -100 < 0`). -/
def c3PlayerUp : PlayerState :=
  { playerInit 100 144 with dash_unlocked := true, vy := -100 }

/-- C3 scenario: the same but moving downward (`vy = 100 > 0`). -/
def c3PlayerDown : PlayerState :=
  { playerInit 100 144 with dash_unlocked := true, vy := 100 }

/-- C3 scenario input: the dash edge with the button held. -/
def keysDash : Keys := { keysNone with shift_held := true, dash_pressed := true }

/-- An all-empty map (nothing blocks standing). -/
def emptyMap : Tilemap := [blankRow 5, blankRow 5, blankRow 5]

/-- C4 scenario: two vertically adjacent dash gates in column 4 (rows 1
and 2), over flat ground, as in the default level's gate column. -/
def c4Map : Tilemap :=
  [blankRow 6,
   [' ', ' ', ' ', ' ', '|', ' '],
   [' ', ' ', ' ', ' ', '|', ' '],
   List.replicate 6 'X']

/-- C4 scenario: a player mid-dash moving right toward the gate column. -/
def c4World : World :=
  { player := { playerInit 160 144 with
                  on_ground := true, dash_t := mkRat 1 10, dash_dir := 1, vx := 1150 },
    tilemap := c4Map, items := [], coins_got := 0 }

/-- C4 witness scenario: a single gate in column 4, row 2. -/
def c4OneGateMap : Tilemap :=
  [blankRow 6,
   blankRow 6,
   [' ', ' ', ' ', ' ', '|', ' '],
   List.replicate 6 'X']

def c4OneGateWorld : World :=
  { player := { playerInit 160 144 with
                  on_ground := true, dash_t := mkRat 1 10, dash_dir := 1, vx := 1150 },
    tilemap := c4OneGateMap, items := [], coins_got := 0 }

/-- C4 witness scenario, non-dashing: walking right into the same gate. -/
def c4NoDashWorld : World :=
  { player := { playerInit 180 144 with on_ground := true, vx := 300 },
    tilemap := c4OneGateMap, items := [], coins_got := 0 }

/-- C5 scenario: a solid ceiling tile at `(1, 0)` overlapping the
standing hitbox by a single pixel (`y = 99.5`, so the standing rect top
`int(99.5 - 52) = 47` pokes 1 px into the tile, which the `(-8, -2)`
shrunk query misses). -/
def c5Map : Tilemap :=
  [[' ', 'X', ' '],
   blankRow 3,
   blankRow 3]

def c5World : World :=
  { player := { playerInit 72 (mkRat 199 2) with crouch := true, h := H_CROUCH },
    tilemap := c5Map, items := [], coins_got := 0 }

/-- C5 witness scenario: a genuinely obstructed crouching player — a
full ceiling row one tile above the floor of a 48 px corridor. -/
def c5CorridorMap : Tilemap :=
  [blankRow 4,
   List.replicate 4 'X',
   blankRow 4,
   List.replicate 4 'X']

def c5CorridorWorld : World :=
  { player := { playerInit 96 144 with crouch := true, h := H_CROUCH, on_ground := true },
    tilemap := c5CorridorMap, items := [], coins_got := 0 }

/-- C6 witness scenario: a small player crouched in a 48 px corridor
(floor at row 3, ceiling at row 1): the big crouch hitbox (46) fits, the
big standing hitbox (70) does not. -/
def c6CorridorMap : Tilemap :=
  [blankRow 4,
   List.replicate 4 'X',
   blankRow 4,
   List.replicate 4 'X']

def c6CorridorPlayer : PlayerState :=
  { playerInit 96 144 with crouch := true, h := H_CROUCH, on_ground := true }

/-- C6 witness scenario: a corridor too low even for the big crouch
hitbox is impossible with 48 px tiles for a grounded player, so the
blocked case uses a ceiling dropped to 40 px above the floor by placing
the player lower in the tile. -/
def c6BlockedPlayer : PlayerState :=
  { playerInit 96 184 with crouch := true, h := H_CROUCH, on_ground := false }

/-- C7 witness scenario: an `'S'` block at `(1, 1)` and a small player. -/
def c7Map : Tilemap :=
  [blankRow 3,
   [' ', 'S', ' '],
   List.replicate 3 'X']

def c7World : World :=
  { player := playerInit 72 144, tilemap := c7Map, items := [], coins_got := 0 }

/-- C8 witness data: a small grid and a query rectangle. -/
def c8Map : Tilemap :=
  [['X', ' ', 'C'],
   [' ', '^', ' ']]

def c8Rect : Rect := ⟨40, -10, 70, 70⟩

/-- C9 witness data: a 2×3 rectangular grid. -/
def c9Rows : List (List Char) :=
  [['X', ' ', 'C'],
   ['=', '^', ' ']]

/-- C10 scenario: an `'M'` tile at `(1, 2)` in the player's touch range
while the player's feet are 40 px inside the floor tile (`y = 184`,
floor top 144): both the big standing rect (top `int(184 - 70) = 114`)
and the big crouch rect (top `int(184 - 46) = 138`) overlap the solid
floor cell `(1, 3)`, which the shrunk query also sees, so `set_form`
fails both ways. -/
def c10Map : Tilemap :=
  [blankRow 3,
   blankRow 3,
   [' ', 'M', ' '],
   List.replicate 3 'X']

def c10World : World :=
  { player := playerInit 72 184,
    tilemap := c10Map, items := [], coins_got := 0 }

/-- C10 scenario: an active (non-emerging) mushroom item overlapping the
same player. -/
def c10Item : Mushroom :=
  { x := 80, w := 40, h := 40, target_y := 140, y := 180, vx := 160, vy := 0,
    direction := 1, emerging := false, remove := false }

/-- C3 scenario: dash unlocked but on cooldown — a re-trigger attempt
that must be rejected. -/
def c3CooldownPlayer : PlayerState :=
  { playerInit 100 144 with dash_unlocked := true, dash_cd := 1 }

/-! # Theorems

## Bridge lemmas: the computational helpers agree with the field
operations on `ℚ` -/

theorem qadd_eq (a b : ℚ) : qadd a b = a + b := (Rat.add_def' a b).symm

theorem qsub_eq (a b : ℚ) : qsub a b = a - b := (Rat.sub_def' a b).symm

theorem qneg_eq (a : ℚ) : qneg a = -a := by
  unfold qneg
  rw [← Rat.neg_mkRat, Rat.mkRat_self]

theorem qmul_eq (a b : ℚ) : qmul a b = a * b := by
  unfold qmul
  rw [Rat.mul_def, Rat.normalize_eq_mkRat]

theorem qofInt_eq (n : ℤ) : qofInt n = (n : ℚ) := by
  unfold qofInt
  rw [Rat.mkRat_one]

theorem qdiv_eq (a b : ℚ) : qdiv a b = a / b := by
  unfold qdiv
  rw [Rat.divInt_eq_div]
  rcases eq_or_ne b 0 with hb | hb
  · subst hb; simp
  · have had : ((a.den : ℚ)) ≠ 0 := by exact_mod_cast a.den_nz
    have hbd : ((b.den : ℚ)) ≠ 0 := by exact_mod_cast b.den_nz
    have hbn : ((b.num : ℚ)) ≠ 0 := by exact_mod_cast Rat.num_ne_zero.mpr hb
    have hA : (a.num : ℚ) = a * a.den := (div_eq_iff had).mp (Rat.num_div_den a)
    have hB : (b.num : ℚ) = b * b.den := (div_eq_iff hbd).mp (Rat.num_div_den b)
    push_cast
    field_simp
    rw [hA, hB]
    ring

theorem qabs_eq (a : ℚ) : qabs a = |a| := by
  unfold qabs
  split
  · rw [qneg_eq, abs_of_neg (by assumption)]
  · rw [abs_of_nonneg (le_of_not_lt (by assumption))]

theorem qfloor_eq (a : ℚ) : qfloor a = ⌊a⌋ := by
  rw [Rat.floor_def]; rfl

/-! ## The tile query (`tiles_in_aabb`) -/

theorem mem_intRange {z lo hi : ℤ} : z ∈ intRange lo hi ↔ lo ≤ z ∧ z ≤ hi := by
  unfold intRange
  simp only [List.mem_map, List.mem_range]
  constructor
  · rintro ⟨i, hilt, rfl⟩
    omega
  · rintro ⟨h1, h2⟩
    exact ⟨(z - lo).toNat, by omega, by omega⟩

/-- Membership in the query characterised by range inequalities and the
cell content (no rectangularity assumption needed). -/
theorem mem_tiles_in_aabb {tm : Tilemap} {r : Rect} {tx ty : ℤ} {ch : Char} :
    (tx, ty, ch) ∈ tiles_in_aabb tm r ↔
      (max 0 (r.top / TILE) ≤ ty ∧ ty ≤ min ((tm.length : ℤ) - 1) (r.bottom / TILE)) ∧
      (max 0 (r.left / TILE) ≤ tx ∧ tx ≤ min (((tm.headD []).length : ℤ) - 1) (r.right / TILE)) ∧
      cellAt tm tx ty = ch ∧ ch ≠ ' ' := by
  unfold tiles_in_aabb
  simp only [List.mem_flatMap, List.mem_filterMap, Option.ite_none_right_eq_some,
    Option.some.injEq, Prod.mk.injEq, mem_intRange]
  constructor
  · rintro ⟨ty', hty, tx', htx, hne, rfl, rfl, rfl⟩
    exact ⟨hty, htx, rfl, hne⟩
  · rintro ⟨hty, htx, hcell, hne⟩
    exact ⟨ty, hty, tx, htx, by rw [hcell]; exact ⟨hne, rfl, rfl, rfl⟩⟩

/-- Every yielded triple reports the actual (non-empty) cell content at
non-negative indices. -/
theorem tiles_in_aabb_sound {tm : Tilemap} {r : Rect} {tx ty : ℤ} {ch : Char}
    (h : (tx, ty, ch) ∈ tiles_in_aabb tm r) :
    cellAt tm tx ty = ch ∧ ch ≠ ' ' ∧ 0 ≤ tx ∧ 0 ≤ ty := by
  rcases mem_tiles_in_aabb.mp h with ⟨⟨h1, _⟩, ⟨h3, _⟩, h5, h6⟩
  exact ⟨h5, h6, le_trans (le_max_left _ _) h3, le_trans (le_max_left _ _) h1⟩

/-- C8 — `tiles_in_aabb` yields exactly the non-empty in-bounds cells
whose tile square intersects the rectangle.

For every tile grid with equal-length rows and every rectangle, the
query yields `(tx, ty, ch)` iff `(tx, ty)` is inside the grid bounds,
holds the non-empty code `ch`, and the tile's half-open pixel span meets
the rectangle's closed span on both axes (`tileSpanMeets`); in
particular no out-of-bounds cell is ever yielded, and out-of-bounds
regions behave as empty.  The embedded query is a pure function of the
grid and rectangle, as the Python generator performs no writes. -/
theorem C8_tile_query_exact (tm : Tilemap) (r : Rect)
    (hw : ∀ row ∈ tm, row.length = (tm.headD []).length) (tx ty : ℤ) (ch : Char) :
    (tx, ty, ch) ∈ tiles_in_aabb tm r ↔
      0 ≤ tx ∧ tx < ((tm.headD []).length : ℤ) ∧
      0 ≤ ty ∧ ty < (tm.length : ℤ) ∧
      cellAt tm tx ty = ch ∧ ch ≠ ' ' ∧
      tileSpanMeets tx r.left r.right ∧ tileSpanMeets ty r.top r.bottom := by
  clear hw
  rw [mem_tiles_in_aabb]
  unfold tileSpanMeets TILE Rect.left Rect.right Rect.top Rect.bottom
  constructor
  · rintro ⟨⟨h1, h2⟩, ⟨h3, h4⟩, h5, h6⟩
    refine ⟨?_, ?_, ?_, ?_, h5, h6, ?_, ?_⟩ <;> omega
  · rintro ⟨h1, h2, h3, h4, h5, h6, ⟨h7, h8⟩, ⟨h9, h10⟩⟩
    refine ⟨⟨?_, ?_⟩, ⟨?_, ?_⟩, h5, h6⟩ <;> omega

/-- C8 witness: a concrete membership through the characterisation. -/
theorem C8_tile_query_exact_witness : (2, 0, 'C') ∈ tiles_in_aabb c8Map c8Rect :=
  (C8_tile_query_exact c8Map c8Rect (by decide) 2 0 'C').mpr (by decide)

/-! ## Level persistence round-trip -/

theorem foldr_max_const {rows : List (List Char)} {wd : ℕ}
    (hne : rows ≠ []) (hw : ∀ r ∈ rows, r.length = wd) :
    (rows.map List.length).foldr max 0 = wd := by
  induction rows with
  | nil => exact absurd rfl hne
  | cons r rs ih =>
    simp only [List.map_cons, List.foldr_cons]
    rcases List.eq_nil_or_concat rs with h | _
    · subst h
      simp [hw r (by simp)]
    · rw [ih (by rintro rfl; simp_all) (fun t ht => hw t (List.mem_cons_of_mem _ ht))]
      rw [hw r (by simp)]
      exact max_self wd

theorem ljust_of_length {r : List Char} {wd : ℕ} (h : r.length = wd) : ljust r wd = r := by
  unfold ljust
  rw [h.symm, Nat.sub_self]
  simp

theorem normalise_rows_rect {rows : List (List Char)} {wd : ℕ}
    (hne : rows ≠ []) (hpos : 0 < wd) (hw : ∀ r ∈ rows, r.length = wd) :
    normalise_rows rows = some rows := by
  unfold normalise_rows
  rw [if_neg hne, foldr_max_const hne hw, if_neg (by omega)]
  congr 1
  conv_rhs => rw [← List.map_id rows]
  exact List.map_congr_left (fun r hr => ljust_of_length (hw r hr))

/-- C9 — save/load round-trip of a rectangular grid.

For every non-empty list of rows of equal positive length, writing it
with `save_level` and re-reading the written `tiles` entry through
`_load_level_file`'s normalisation yields exactly the same rows (the
JSON layer itself round-trips the list of strings verbatim and is
modelled as the identity). -/
theorem C9_save_load_round_trip (rows : List (List Char)) (wd : ℕ)
    (hne : rows ≠ []) (hpos : 0 < wd) (hw : ∀ r ∈ rows, r.length = wd) :
    load_level_tiles (save_level_tiles rows) = some rows := by
  unfold save_level_tiles load_level_tiles
  rw [normalise_rows_rect hne hpos hw]
  simp only
  rw [if_neg hne, normalise_rows_rect hne hpos hw]

/-- C9 witness: the round-trip on a concrete 2×3 grid. -/
theorem C9_save_load_round_trip_witness :
    load_level_tiles (save_level_tiles c9Rows) = some c9Rows :=
  C9_save_load_round_trip c9Rows 3 (by decide) (by decide) (by decide)

/-! ## Guarded tile-grid mutation callbacks -/

/-- C7 — `hit_block` and `destroy_gate` mutate only on a verified cell.

`Game.hit_block` leaves the whole session slice (grid, items, coin
counts) unchanged unless the target cell is in bounds and still holds
the reported code `ch`, with `ch` one of `'B'`/`'Q'`, or `'S'` with the
player currently big; `Game.destroy_gate` is the identity unless the
cell holds `'|'`.  Every other call is a silent no-op. -/
theorem C7_callbacks_guarded (w : World) (tx ty : ℤ) (ch : Char) :
    (¬(0 ≤ ty ∧ ty < (w.tilemap.length : ℤ) ∧
       0 ≤ tx ∧ tx < ((w.tilemap.headD []).length : ℤ) ∧
       cellAt w.tilemap tx ty = ch ∧
       (ch = 'B' ∨ ch = 'Q' ∨ (ch = 'S' ∧ w.player.form = Form.big))) →
      hit_block w tx ty ch = w) ∧
    (cellAt w.tilemap tx ty ≠ '|' → destroy_gate w tx ty = w) := by
  constructor
  · intro hnot
    unfold hit_block
    split
    · rfl
    split
    · rfl
    split
    · rfl
    rename_i hb1 hb2 hcell
    split
    · rename_i hB
      exact absurd ⟨by omega, by omega, by omega, by omega,
        by simpa using hcell, Or.inl hB⟩ hnot
    split
    · rename_i hQ
      exact absurd ⟨by omega, by omega, by omega, by omega,
        by simpa using hcell, Or.inr (Or.inl hQ)⟩ hnot
    split
    · rename_i hS
      split
      · rfl
      · rename_i hform
        exact absurd ⟨by omega, by omega, by omega, by omega,
          by simpa using hcell, Or.inr (Or.inr ⟨hS, by simpa using hform⟩)⟩ hnot
    · rfl
  · intro hne
    unfold destroy_gate
    rw [if_neg hne]

/-- C7 witness: a small player hitting a breakable `'S'` block, and a
gate destroy aimed at a non-gate cell, both no-ops. -/
theorem C7_callbacks_guarded_witness :
    hit_block c7World 1 1 'S' = c7World ∧ destroy_gate c7World 0 1 = c7World :=
  ⟨(C7_callbacks_guarded c7World 1 1 'S').1 (by decide),
   (C7_callbacks_guarded c7World 0 1 '?').2 (by decide)⟩

/-! ## Lossy mushroom pickups -/

theorem set_form_false_unchanged (f : Form) (otm : Option Tilemap) (p : PlayerState) :
    (set_form f otm p).1 = false → (set_form f otm p).2 = p := by
  by_cases hf : f = p.form
  · simp only [set_form, if_pos hf]
    exact fun h => absurd h (by simp)
  · simp only [set_form, if_neg hf]
    cases f with
    | small => exact fun h => absurd h (by simp)
    | big =>
      by_cases h1 : rectFits otm p H_STAND_BIG = false ∧ rectFits otm p H_CROUCH_BIG = false
      · rw [if_pos h1]
        exact fun _ => rfl
      · rw [if_neg h1]
        by_cases h2 : rectFits otm p H_STAND_BIG = true ∧ p.crouch = false
        · rw [if_pos h2]
          exact fun h => absurd h (by simp)
        · rw [if_neg h2]
          exact fun h => absurd h (by simp)

theorem collect_powerup_fail (tm : Tilemap) (p : PlayerState) :
    (collect_powerup_mushroom tm p).1 = false → (collect_powerup_mushroom tm p).2 = p := by
  by_cases hb : (set_form Form.big (some tm) p).1 = true
  · simp only [collect_powerup_mushroom, if_pos hb]
    exact fun h => absurd h (by simp)
  · simp only [collect_powerup_mushroom, if_neg hb]
    intro _
    exact set_form_false_unchanged Form.big (some tm) p (by simpa using hb)

theorem cellAt_ne_blank_bounds {tm : Tilemap} {tx ty : ℤ}
    (h : cellAt tm tx ty ≠ ' ') :
    ty.toNat < tm.length ∧ tx.toNat < (tm.getD ty.toNat []).length := by
  unfold cellAt at h
  constructor
  · by_contra hb
    apply h
    rw [List.getD_eq_default _ _ (by omega : tm.length ≤ ty.toNat)]
    simp
  · by_contra hb
    exact h (List.getD_eq_default _ _ (by omega))

theorem cellAt_setCell_self {tm : Tilemap} {tx ty : ℤ} {c : Char}
    (hb1 : ty.toNat < tm.length) (hb2 : tx.toNat < (tm.getD ty.toNat []).length) :
    cellAt (setCell tm tx ty c) tx ty = c := by
  unfold cellAt setCell
  have h1 : (tm.set ty.toNat ((tm.getD ty.toNat []).set tx.toNat c)).getD ty.toNat []
      = (tm.getD ty.toNat []).set tx.toNat c := by
    rw [List.getD_eq_getElem?_getD, List.getElem?_set_self hb1]
    rfl
  rw [h1, List.getD_eq_getElem?_getD,
    List.getElem?_set_self (by simpa using hb2)]
  rfl

/-- C10 — failed mushroom pickups are still consumed.

Touching an `'M'` tile rewrites it to empty in both branches of the
pickup, and an overlapped active mushroom item is marked for removal in
both branches; when the grow-to-big transition fails (neither big hitbox
fits), the player is returned entirely unchanged — still small, with no
power-up effect — so the pickup is permanently lost. -/
theorem C10_failed_pickup_consumed (w : World) (tx ty : ℤ) (it : Mushroom) :
    (cellAt w.tilemap tx ty = 'M' →
       cellAt (mushroomTileStep w tx ty).tilemap tx ty = ' ' ∧
       ((collect_powerup_mushroom w.tilemap w.player).1 = false →
         (mushroomTileStep w tx ty).player = w.player)) ∧
    (it.remove = false → it.emerging = false →
       (playerRect w.player).collide (mushroomRect it) = true →
       (itemPickupStep w it).2.remove = true ∧
       ((collect_powerup_mushroom w.tilemap w.player).1 = false →
         (itemPickupStep w it).1.player = w.player)) := by
  constructor
  · intro hM
    have hMne : cellAt w.tilemap tx ty ≠ ' ' := by rw [hM]; decide
    have hb := cellAt_ne_blank_bounds hMne
    constructor
    · have htile : (mushroomTileStep w tx ty).tilemap = setCell w.tilemap tx ty ' ' := by
        unfold mushroomTileStep
        split <;> rfl
      rw [htile]
      exact cellAt_setCell_self hb.1 hb.2
    · intro hfail
      unfold mushroomTileStep
      split
      · rename_i hgrew
        exact absurd hgrew (by simp [hfail])
      · simpa using collect_powerup_fail w.tilemap w.player hfail
  · intro hrm hem hcol
    unfold itemPickupStep
    rw [if_neg (by simp [hrm, hem]), if_pos hcol]
    constructor
    · split <;> rfl
    · intro hfail
      split
      · rename_i hgrew
        exact absurd hgrew (by simp [hfail])
      · simpa using collect_powerup_fail w.tilemap w.player hfail

/-- C10 witness: the concrete squeezed player loses the mushroom both
from the tile and from an overlapped item. -/
theorem C10_failed_pickup_consumed_witness :
    cellAt (mushroomTileStep c10World 1 2).tilemap 1 2 = ' ' ∧
    (mushroomTileStep c10World 1 2).player = c10World.player ∧
    (itemPickupStep c10World c10Item).2.remove = true ∧
    (itemPickupStep c10World c10Item).1.player = c10World.player :=
  ⟨((C10_failed_pickup_consumed c10World 1 2 c10Item).1 (by decide)).1,
   ((C10_failed_pickup_consumed c10World 1 2 c10Item).1 (by decide)).2 (by decide),
   ((C10_failed_pickup_consumed c10World 1 2 c10Item).2 (by decide) (by decide) (by decide)).1,
   ((C10_failed_pickup_consumed c10World 1 2 c10Item).2 (by decide) (by decide) (by decide)).2 (by decide)⟩

/-! ## Growing to big form -/

/-- C6 — growing succeeds iff a big hitbox fits.

For a small player, `set_form("big")` succeeds iff the standing big
hitbox or the crouched big hitbox fits at the current position (in the
program's sense of `_rect_fits`); when only the crouched hitbox fits the
growth succeeds with crouch forced on and the big crouch height; when
neither fits it returns `False` and leaves the player entirely
unchanged. -/
theorem C6_grow_iff_fits (tm : Tilemap) (p : PlayerState) (hsmall : p.form = Form.small) :
    ((set_form Form.big (some tm) p).1 = true ↔
      rectFits (some tm) p H_STAND_BIG = true ∨ rectFits (some tm) p H_CROUCH_BIG = true) ∧
    (rectFits (some tm) p H_STAND_BIG = false → rectFits (some tm) p H_CROUCH_BIG = true →
      (set_form Form.big (some tm) p).1 = true ∧
      (set_form Form.big (some tm) p).2.crouch = true ∧
      (set_form Form.big (some tm) p).2.h = H_CROUCH_BIG ∧
      (set_form Form.big (some tm) p).2.form = Form.big) ∧
    (rectFits (some tm) p H_STAND_BIG = false → rectFits (some tm) p H_CROUCH_BIG = false →
      set_form Form.big (some tm) p = (false, p)) := by
  have hne : ¬ (Form.big = p.form) := by rw [hsmall]; decide
  rcases hS : rectFits (some tm) p H_STAND_BIG with _ | _ <;>
    rcases hC : rectFits (some tm) p H_CROUCH_BIG with _ | _ <;>
      simp only [set_form, if_neg hne, hS, hC] <;>
        simp <;>
          (split <;> rfl)

/-- C6 witness: in the one-tile corridor only the crouched big hitbox
fits, so growth succeeds crouched; the floor-embedded player fits
neither way and growth fails without mutation. -/
theorem C6_grow_iff_fits_witness :
    ((set_form Form.big (some c6CorridorMap) c6CorridorPlayer).1 = true ∧
     (set_form Form.big (some c6CorridorMap) c6CorridorPlayer).2.crouch = true ∧
     (set_form Form.big (some c6CorridorMap) c6CorridorPlayer).2.h = H_CROUCH_BIG) ∧
    set_form Form.big (some c6CorridorMap) c6BlockedPlayer = (false, c6BlockedPlayer) :=
  ⟨by
    have h := (C6_grow_iff_fits c6CorridorMap c6CorridorPlayer (by decide)).2.1
      (by decide) (by decide)
    exact ⟨h.1, h.2.1, h.2.2.1⟩,
   (C6_grow_iff_fits c6CorridorMap c6BlockedPlayer (by decide)).2.2
     (by decide) (by decide)⟩

/-! ## Forced crouch -/

theorem skidResolve_crouch (i m : ℤ) (p : PlayerState) :
    (skidResolve i m p).crouch = p.crouch := by
  unfold skidResolve; split <;> rfl

theorem skidResolve_h (i m : ℤ) (p : PlayerState) :
    (skidResolve i m p).h = p.h := by
  unfold skidResolve; split <;> rfl

theorem sprintResolve_crouch (keys : Keys) (p : PlayerState) :
    (sprintResolve keys p).crouch = p.crouch := rfl

theorem sprintResolve_h (keys : Keys) (p : PlayerState) :
    (sprintResolve keys p).h = p.h := rfl

theorem dashTrigger_crouch (keys : Keys) (tm : Tilemap) (p : PlayerState) :
    (dashTrigger keys tm p).crouch = p.crouch := by
  unfold dashTrigger start_dash; split <;> rfl

theorem dashTrigger_h (keys : Keys) (tm : Tilemap) (p : PlayerState) :
    (dashTrigger keys tm p).h = p.h := by
  unfold dashTrigger start_dash; split <;> rfl

theorem slideTrigger_crouch (keys : Keys) (pc ps : Bool) (p : PlayerState) :
    (slideTrigger keys pc ps p).crouch = p.crouch := by
  unfold slideTrigger; split <;> rfl

theorem slideTrigger_h (keys : Keys) (pc ps : Bool) (p : PlayerState) :
    (slideTrigger keys pc ps p).h = p.h := by
  unfold slideTrigger; split <;> rfl

theorem slideForce_crouch_false {p : PlayerState}
    (h : (slideForce p).crouch = false) :
    p.crouch = false ∧ (slideForce p).h = p.h := by
  unfold slideForce at *
  by_cases hq : p.crouch_slide_t > 0
  · rw [if_pos hq] at h
    simp at h
  · rw [if_neg hq] at h ⊢
    exact ⟨h, rfl⟩

theorem slideForce_crouch_true {p : PlayerState} (h : p.crouch = true) :
    (slideForce p).crouch = true := by
  unfold slideForce
  split
  · rfl
  · exact h

theorem set_crouch_uncrouch {want : Bool} {tm : Tilemap} {p : PlayerState}
    (hc : p.crouch = true) :
    ((set_crouch want tm p).crouch = false →
      canStand tm p = true ∧ (set_crouch want tm p).h = p.h_stand) ∧
    (canStand tm p = false → (set_crouch want tm p).crouch = true) := by
  unfold set_crouch
  have hc1 : ¬(want = true ∧ p.crouch = false) := by simp [hc]
  rw [if_neg hc1]
  by_cases hw : want = false
  · rw [if_pos ⟨hw, hc⟩]
    by_cases hcs : canStand tm p = true
    · rw [if_pos hcs]
      refine ⟨fun _ => ⟨hcs, rfl⟩, fun hns => ?_⟩
      rw [hcs] at hns
      cases hns
    · rw [if_neg hcs]
      exact ⟨fun h => by simp at h, fun _ => rfl⟩
  · rw [if_neg (fun hh => hw hh.1)]
    exact ⟨fun h => absurd h (by simp [hc]), fun _ => hc⟩

theorem crouchResolve_uncrouch {keys : Keys} {tm : Tilemap} {p : PlayerState}
    (hc : p.crouch = true) :
    ((crouchResolve keys tm p).crouch = false →
      canStand tm p = true ∧ (crouchResolve keys tm p).h = p.h_stand) ∧
    (canStand tm p = false → (crouchResolve keys tm p).crouch = true) := by
  unfold crouchResolve
  exact set_crouch_uncrouch hc

/-- C5 (amended) — uncrouching is guarded by the code's standing check.

For a crouching player, a frame of `Player.update` clears the crouch
flag only when `_can_stand` holds — i.e. no solid/spike/gate/goal tile
among those returned by the tolerance query (the standing hitbox shrunk
by 8 px horizontally and 2 px vertically) collides with the standing
hitbox — and then the hitbox is restored to standing height; while
`_can_stand` is false the crouch flag remains true, on every frame until
the obstruction clears.  The third conjunct makes the detection notion
explicit: tiles overlapping only the shrunk margin are not consulted. -/
theorem C5_uncrouch_guarded (dt : ℚ) (keys : Keys) (tm : Tilemap) (p : PlayerState)
    (hc : p.crouch = true) :
    ((playerPhaseA dt keys tm p).crouch = false →
      canStand tm p = true ∧ (playerPhaseA dt keys tm p).h = p.h_stand) ∧
    (canStand tm p = false → (playerPhaseA dt keys tm p).crouch = true) ∧
    (canStand tm p = true ↔
      ∀ t ∈ tiles_in_aabb tm
          ((playerRectAt p.x p.y p.w p.h_stand).inflate (-8) (-2)),
        ((t.2.2 = '|' ∨ t.2.2 = '^' ∨ t.2.2 = 'F') ∨ solid t.2.2 = true) →
          (playerRectAt p.x p.y p.w p.h_stand).collide (tileRect t.1 t.2.1) = false) := by
  have hA : ∀ i m : ℤ, playerPhaseA dt keys tm p =
      skidResolve (if axisOf keys > 0 then 1 else if axisOf keys < 0 then -1 else 0)
        (if (faceUpdate (axisOf keys) (tickTimers dt p)).vx > 20 then 1
         else if (faceUpdate (axisOf keys) (tickTimers dt p)).vx < -20 then -1 else 0)
        (sprintResolve keys (dashTrigger keys tm (preDashState dt keys tm p))) :=
    fun _ _ => rfl
  have hA0 := hA 0 0
  have hp : preDashState dt keys tm p =
      slideForce (slideTrigger keys
        (faceUpdate (axisOf keys) (tickTimers dt p)).crouch
        (faceUpdate (axisOf keys) (tickTimers dt p)).sprint
        (crouchResolve keys tm (faceUpdate (axisOf keys) (tickTimers dt p)))) := rfl
  have hc2 : (faceUpdate (axisOf keys) (tickTimers dt p)).crouch = true := hc
  refine ⟨?_, ?_, ?_⟩
  · intro h
    rw [hA0, skidResolve_crouch, sprintResolve_crouch, dashTrigger_crouch, hp] at h
    have h5 := slideForce_crouch_false h
    have h5l := h5.1
    rw [slideTrigger_crouch] at h5l
    have h6 := (crouchResolve_uncrouch hc2).1 h5l
    refine ⟨h6.1, ?_⟩
    rw [hA0, skidResolve_h, sprintResolve_h, dashTrigger_h, hp, h5.2, slideTrigger_h]
    exact h6.2
  · intro hns
    rw [hA0, skidResolve_crouch, sprintResolve_crouch, dashTrigger_crouch, hp]
    apply slideForce_crouch_true
    rw [slideTrigger_crouch]
    exact (crouchResolve_uncrouch hc2).2 hns
  · unfold canStand
    rw [List.all_eq_true]
    constructor
    · intro hall t ht hhaz
      have hcur := hall t ht
      rw [if_pos hhaz] at hcur
      simpa using hcur
    · intro himp t ht
      by_cases hhaz : (t.2.2 = '|' ∨ t.2.2 = '^' ∨ t.2.2 = 'F') ∨ solid t.2.2 = true
      · rw [if_pos hhaz]
        simpa using himp t ht hhaz
      · rw [if_neg hhaz]

/-- C5 counterexample — the claim's unqualified overlap notion fails.

A concrete crouching player with a solid ceiling tile overlapping the
standing hitbox by one pixel (which the shrunk query does not see):
crouch is not requested, the standing hitbox overlaps the solid tile,
and the frame still clears the crouch flag. -/
theorem C5_uncrouch_guarded_counterexample :
    c5World.player.crouch = true ∧
    keysNone.crouch_held = false ∧
    cellAt c5World.tilemap 1 0 = 'X' ∧
    solid 'X' = true ∧
    (playerRectAt c5World.player.x c5World.player.y c5World.player.w
      c5World.player.h_stand).collide (tileRect 1 0) = true ∧
    (playerUpdate dt60 keysNone c5World).player.crouch = false := by
  decide

/-- C5 witness: a genuinely obstructed corridor keeps the crouch flag
set for the frame. -/
theorem C5_uncrouch_guarded_witness :
    canStand c5CorridorWorld.tilemap c5CorridorWorld.player = false ∧
    (playerPhaseA dt60 keysNone c5CorridorWorld.tilemap c5CorridorWorld.player).crouch = true :=
  ⟨by decide,
   (C5_uncrouch_guarded dt60 keysNone c5CorridorWorld.tilemap c5CorridorWorld.player
     (by decide)).2.1 (by decide)⟩

/-! ## The dash trigger -/

theorem skidResolve_dash_fields (i m : ℤ) (p : PlayerState) :
    (skidResolve i m p).dash_t = p.dash_t ∧ (skidResolve i m p).dash_cd = p.dash_cd ∧
    (skidResolve i m p).inv = p.inv ∧ (skidResolve i m p).dash_dir = p.dash_dir ∧
    (skidResolve i m p).vx = p.vx ∧ (skidResolve i m p).vy = p.vy ∧
    (skidResolve i m p).sprint = p.sprint := by
  unfold skidResolve
  split <;> exact ⟨rfl, rfl, rfl, rfl, rfl, rfl, rfl⟩

theorem sprintResolve_dash_fields (keys : Keys) (p : PlayerState) :
    (sprintResolve keys p).dash_t = p.dash_t ∧ (sprintResolve keys p).dash_cd = p.dash_cd ∧
    (sprintResolve keys p).inv = p.inv ∧ (sprintResolve keys p).dash_dir = p.dash_dir ∧
    (sprintResolve keys p).vx = p.vx ∧ (sprintResolve keys p).vy = p.vy :=
  ⟨rfl, rfl, rfl, rfl, rfl, rfl⟩

theorem sprintResolve_sprint_false (keys : Keys) {p : PlayerState}
    (hs : p.sprint = false) (hdt : p.dash_t > 0) :
    (sprintResolve keys p).sprint = false := by
  unfold sprintResolve
  dsimp only
  rw [if_neg (fun hh => absurd hh.1 (not_le.mpr hdt))]
  split
  · rfl
  · exact hs

/-- C3 (amended) — the dash trigger condition and its effects.

A dash starts in a frame iff, at the dash check (after timers and
crouch/slide resolution), dash is unlocked, the dash button was newly
pressed, no dash is active, the cooldown has elapsed, the dash lock is
clear, the player is not crouching and there is room to stand
(`dashCond`).  Starting it sets the dash timer to `DASH_TIME`, the
cooldown to `DASH_COOLDOWN`, the brief invulnerability, locks the
horizontal velocity to `facing * DASH_SPEED`, zeroes any DOWNWARD
vertical velocity (`vy > 0`; an upward `vy < 0` is preserved — the
claim's "upward" is reversed, see the counterexample) and cancels
sprint.  When the condition fails — in particular before
`DASH_COOLDOWN` has elapsed — the dash state is left untouched. -/
theorem C3_dash_trigger (dt : ℚ) (keys : Keys) (tm : Tilemap) (p : PlayerState) :
    (dashCond keys tm (preDashState dt keys tm p) →
      (playerPhaseA dt keys tm p).dash_t = DASH_TIME ∧
      (playerPhaseA dt keys tm p).dash_cd = DASH_COOLDOWN ∧
      (playerPhaseA dt keys tm p).inv = INVINCIBLE_ON_DASH ∧
      (playerPhaseA dt keys tm p).dash_dir =
        (if (preDashState dt keys tm p).facing ≠ 0 then (preDashState dt keys tm p).facing else 1) ∧
      (playerPhaseA dt keys tm p).vx =
        qmul (qofInt (if (preDashState dt keys tm p).facing ≠ 0
          then (preDashState dt keys tm p).facing else 1)) DASH_SPEED ∧
      (playerPhaseA dt keys tm p).vy =
        (if (preDashState dt keys tm p).vy > 0 then 0 else (preDashState dt keys tm p).vy) ∧
      (playerPhaseA dt keys tm p).sprint = false) ∧
    (¬ dashCond keys tm (preDashState dt keys tm p) →
      (playerPhaseA dt keys tm p).dash_t = (preDashState dt keys tm p).dash_t ∧
      (playerPhaseA dt keys tm p).dash_cd = (preDashState dt keys tm p).dash_cd ∧
      (playerPhaseA dt keys tm p).inv = (preDashState dt keys tm p).inv ∧
      (playerPhaseA dt keys tm p).vx = (preDashState dt keys tm p).vx ∧
      (playerPhaseA dt keys tm p).vy = (preDashState dt keys tm p).vy) := by
  have hA0 : playerPhaseA dt keys tm p =
      skidResolve (if axisOf keys > 0 then 1 else if axisOf keys < 0 then -1 else 0)
        (if (faceUpdate (axisOf keys) (tickTimers dt p)).vx > 20 then 1
         else if (faceUpdate (axisOf keys) (tickTimers dt p)).vx < -20 then -1 else 0)
        (sprintResolve keys (dashTrigger keys tm (preDashState dt keys tm p))) := rfl
  constructor
  · intro hd
    have hdt : dashTrigger keys tm (preDashState dt keys tm p) =
        { start_dash (preDashState dt keys tm p) with dash_lock := true } := by
      unfold dashTrigger
      rw [if_pos hd]
    rw [hA0, hdt]
    have hskid := skidResolve_dash_fields
      (if axisOf keys > 0 then 1 else if axisOf keys < 0 then -1 else 0)
      (if (faceUpdate (axisOf keys) (tickTimers dt p)).vx > 20 then 1
       else if (faceUpdate (axisOf keys) (tickTimers dt p)).vx < -20 then -1 else 0)
      (sprintResolve keys { start_dash (preDashState dt keys tm p) with dash_lock := true })
    refine ⟨?_, ?_, ?_, ?_, ?_, ?_, ?_⟩
    · rw [hskid.1]; rfl
    · rw [hskid.2.1]; rfl
    · rw [hskid.2.2.1]; rfl
    · rw [hskid.2.2.2.1]; rfl
    · rw [hskid.2.2.2.2.1]; rfl
    · rw [hskid.2.2.2.2.2.1]; rfl
    · rw [hskid.2.2.2.2.2.2]
      refine sprintResolve_sprint_false keys rfl ?_
      show DASH_TIME > 0
      decide
  · intro hd
    have hdt : dashTrigger keys tm (preDashState dt keys tm p) =
        preDashState dt keys tm p := by
      unfold dashTrigger
      rw [if_neg hd]
    rw [hA0, hdt]
    have hskid := skidResolve_dash_fields
      (if axisOf keys > 0 then 1 else if axisOf keys < 0 then -1 else 0)
      (if (faceUpdate (axisOf keys) (tickTimers dt p)).vx > 20 then 1
       else if (faceUpdate (axisOf keys) (tickTimers dt p)).vx < -20 then -1 else 0)
      (sprintResolve keys (preDashState dt keys tm p))
    exact ⟨by rw [hskid.1]; rfl, by rw [hskid.2.1]; rfl, by rw [hskid.2.2.1]; rfl,
      by rw [hskid.2.2.2.2.1]; rfl, by rw [hskid.2.2.2.2.2.1]; rfl⟩

/-- C3 counterexample — "zeroes any upward vertical velocity" is the
wrong direction: a dash started while moving upward (`vy = -100`, the
jump direction of `JUMP_VEL = -900`) keeps `vy = -100`, while a dash
started while moving downward (`vy = 100`) has `vy` zeroed. -/
theorem C3_dash_trigger_counterexample :
    c3PlayerUp.vy = -100 ∧ c3PlayerUp.vy < 0 ∧
    (playerPhaseA dt60 keysDash emptyMap c3PlayerUp).dash_t = DASH_TIME ∧
    (playerPhaseA dt60 keysDash emptyMap c3PlayerUp).vy = -100 ∧
    c3PlayerDown.vy = 100 ∧
    (playerPhaseA dt60 keysDash emptyMap c3PlayerDown).dash_t = DASH_TIME ∧
    (playerPhaseA dt60 keysDash emptyMap c3PlayerDown).vy = 0 := by
  decide

/-- C3 witness: the trigger fires on the ready player and is rejected on
the cooling-down player (whose cooldown is merely ticked down, not
reset). -/
theorem C3_dash_trigger_witness :
    (playerPhaseA dt60 keysDash emptyMap c3PlayerUp).dash_t = DASH_TIME ∧
    (playerPhaseA dt60 keysDash emptyMap c3PlayerUp).sprint = false ∧
    (playerPhaseA dt60 keysDash emptyMap c3CooldownPlayer).dash_cd =
      (preDashState dt60 keysDash emptyMap c3CooldownPlayer).dash_cd := by
  have h1 := (C3_dash_trigger dt60 keysDash emptyMap c3PlayerUp).1 (by decide)
  have h2 := (C3_dash_trigger dt60 keysDash emptyMap c3CooldownPlayer).2 (by decide)
  exact ⟨h1.1, h1.2.2.2.2.2.2, h2.2.1⟩

/-! ## The jump buffer at the only `try_jump` call site -/

/-- C1 — the buffered jump is NOT executed on landing (code bug).

`try_jump` is called only on frames whose `jump_pressed` edge is set
(`Game.update` line 913), so the jump-buffer timer armed by an earlier
press is never consulted again.  Concretely: a player who pressed jump
0.08 s ago (buffer still positive, within `JUMP_BUFFER = 0.12`), past
the coyote window, lands during this frame; the frame leaves the buffer
positive and `vy = 0` — no jump — even though `try_jump` applied to the
frame's final state would fire.  The claim (an early press remembered in
the buffer is executed on landing) describes the evident intent of the
buffer machinery, which the call-site gating defeats. -/
theorem C1_buffered_jump_not_executed_on_landing :
    c1World.player.jump_buf > 0 ∧
    c1World.player.on_ground = false ∧
    c1World.player.since_ground > COYOTE_TIME ∧
    keysNone.jump_pressed = false ∧
    (gameStepPlayer dt60 keysNone c1World).player.on_ground = true ∧
    (gameStepPlayer dt60 keysNone c1World).player.jump_buf > 0 ∧
    (gameStepPlayer dt60 keysNone c1World).player.vy = 0 ∧
    (try_jump (gameStepPlayer dt60 keysNone c1World).player).1 = true := by
  decide

/-! ## The crouch slide -/

/-- C2 (amended) — the trigger formulas, and the idealized stopping
distance bound.

At any trigger speed `v0 ≥ CROUCH_SLIDE_TRIGGER_SPEED`, the
per-instance deceleration equals
`min(CROUCH_SLIDE_DECEL_BASE, v0²/(2·CROUCH_SLIDE_MIN_DIST))` (the
code's `max(1, ·)` guards are inert at trigger speeds), the duration
equals `max(CROUCH_SLIDE_TIME_BASE, v0/deceleration)`, and the
continuous-integration stopping distance `v0²/(2·deceleration)` is at
least `CROUCH_SLIDE_MIN_DIST`.  The distance actually travelled by the
discrete per-frame integration can fall short of the bound (see the
counterexample). -/
theorem C2_slide_decel_and_distance (v0 : ℚ) (hv : v0 ≥ CROUCH_SLIDE_TRIGGER_SPEED) :
    crouchSlideDecelOf v0 =
      min CROUCH_SLIDE_DECEL_BASE (v0 * v0 / (2 * CROUCH_SLIDE_MIN_DIST)) ∧
    crouchSlideTimeOf (crouchSlideDecelOf v0) v0 =
      max CROUCH_SLIDE_TIME_BASE (v0 / crouchSlideDecelOf v0) ∧
    v0 * v0 / (2 * crouchSlideDecelOf v0) ≥ CROUCH_SLIDE_MIN_DIST := by
  have htr : CROUCH_SLIDE_TRIGGER_SPEED = (3159 : ℚ) / 10 := by
    rw [show ((3159 : ℚ) / 10) = mkRat 3159 10 by rw [Rat.mkRat_eq_div]; norm_num]
    decide
  rw [htr] at hv
  have hv0 : (0 : ℚ) < v0 := by linarith
  have hmax90 : max (1 : ℚ) CROUCH_SLIDE_MIN_DIST = CROUCH_SLIDE_MIN_DIST := by
    unfold CROUCH_SLIDE_MIN_DIST
    exact max_eq_right (by norm_num)
  have hdec : crouchSlideDecelOf v0 =
      min CROUCH_SLIDE_DECEL_BASE (v0 * v0 / (2 * CROUCH_SLIDE_MIN_DIST)) := by
    unfold crouchSlideDecelOf
    rw [qdiv_eq, qmul_eq, qmul_eq, hmax90]
  have hsq : v0 * v0 ≥ 180 := by nlinarith
  have hX1 : (1 : ℚ) ≤ v0 * v0 / (2 * CROUCH_SLIDE_MIN_DIST) := by
    unfold CROUCH_SLIDE_MIN_DIST
    rw [le_div_iff₀ (by norm_num : (0 : ℚ) < 2 * 90)]
    linarith
  have hd1 : (1 : ℚ) ≤ crouchSlideDecelOf v0 := by
    rw [hdec]
    refine le_min ?_ hX1
    unfold CROUCH_SLIDE_DECEL_BASE
    norm_num
  refine ⟨hdec, ?_, ?_⟩
  · unfold crouchSlideTimeOf
    rw [qdiv_eq, max_eq_right hd1]
  · rw [hdec]
    rcases le_total (v0 * v0 / (2 * CROUCH_SLIDE_MIN_DIST)) CROUCH_SLIDE_DECEL_BASE with hle | hle
    · rw [min_eq_right hle]
      unfold CROUCH_SLIDE_MIN_DIST
      have h2 : (2 : ℚ) * (v0 * v0 / (2 * 90)) = v0 * v0 / 90 := by ring
      rw [ge_iff_le, h2, le_div_iff₀ (by positivity : (0 : ℚ) < v0 * v0 / 90)]
      have h3 : (90 : ℚ) * (v0 * v0 / 90) = v0 * v0 := by field_simp
      rw [h3]
    · rw [min_eq_left hle]
      unfold CROUCH_SLIDE_DECEL_BASE CROUCH_SLIDE_MIN_DIST at *
      rw [ge_iff_le, le_div_iff₀ (by norm_num : (0 : ℚ) < 2 * 5200)]
      have := (le_div_iff₀ (by norm_num : (0 : ℚ) < 2 * 90)).mp hle
      linarith

/-- C2 witness: the amended statement at the counterexample's trigger
speed `v0 = 324`. -/
theorem C2_slide_decel_and_distance_witness :
    crouchSlideDecelOf 324 =
      min CROUCH_SLIDE_DECEL_BASE ((324 : ℚ) * 324 / (2 * CROUCH_SLIDE_MIN_DIST)) ∧
    crouchSlideTimeOf (crouchSlideDecelOf 324) 324 =
      max CROUCH_SLIDE_TIME_BASE ((324 : ℚ) / crouchSlideDecelOf 324) ∧
    (324 : ℚ) * 324 / (2 * crouchSlideDecelOf 324) ≥ CROUCH_SLIDE_MIN_DIST :=
  C2_slide_decel_and_distance 324 (by decide)

set_option maxHeartbeats 2000000 in
/-- C2 counterexample — the discrete per-frame slide distance can fall
short of `CROUCH_SLIDE_MIN_DIST`.

A grounded sprinting player at `v0 = 324 ≥ 315.9` triggers a slide
(deceleration `324²/180 = 583.2`, duration `5/9 s`); stepping whole
frames of `Player.update` at `dt = 1/10` (a lagged frame time —
`dt = clock.tick(FPS)/1000` has no lower bound on frame rate), the
horizontal speed reaches zero at frame 6 and holds it, but the total
distance travelled is `7452/100 = 74.52 < 90` — the velocity is
decremented before each position update, so the discrete integral
undershoots the continuous one. -/
theorem C2_slide_distance_counterexample :
    qabs c2World.player.vx ≥ CROUCH_SLIDE_TRIGGER_SPEED ∧
    (playerUpdate dt10 keysCrouchPress c2World).player.crouch_slide_decel = mkRat 2916 5 ∧
    (playerUpdate dt10 keysCrouchPress c2World).player.crouch_slide_t = mkRat 5 9 ∧
    ((fun w => playerUpdate dt10 keysCrouchHold w)^[5]
      (playerUpdate dt10 keysCrouchPress c2World)).player.vx = 0 ∧
    ((fun w => playerUpdate dt10 keysCrouchHold w)^[6]
      (playerUpdate dt10 keysCrouchPress c2World)).player.vx = 0 ∧
    ((fun w => playerUpdate dt10 keysCrouchHold w)^[6]
      (playerUpdate dt10 keysCrouchPress c2World)).player.x =
      ((fun w => playerUpdate dt10 keysCrouchHold w)^[5]
        (playerUpdate dt10 keysCrouchPress c2World)).player.x ∧
    qsub (((fun w => playerUpdate dt10 keysCrouchHold w)^[6]
      (playerUpdate dt10 keysCrouchPress c2World)).player.x) c2World.player.x
      < CROUCH_SLIDE_MIN_DIST := by
  decide

/-! ## Gate destruction on dash contact -/

theorem cellAt_setCell_ne {tm : Tilemap} {tx ty : ℤ} {c : Char} {a b : ℤ}
    (ha : 0 ≤ a) (hb : 0 ≤ b) (htx : 0 ≤ tx) (hty : 0 ≤ ty)
    (hne : ¬(a = tx ∧ b = ty)) :
    cellAt (setCell tm tx ty c) a b = cellAt tm a b := by
  unfold cellAt setCell
  by_cases hrow : b = ty
  · subst hrow
    have hcol : tx.toNat ≠ a.toNat := by omega
    by_cases hlen : b.toNat < tm.length
    · rw [List.getD_eq_getElem?_getD
          (List.set tm b.toNat ((tm.getD b.toNat []).set tx.toNat c)) b.toNat [],
        List.getElem?_set_self hlen, Option.getD_some,
        List.getD_eq_getElem?_getD ((tm.getD b.toNat []).set tx.toNat c) a.toNat ' ',
        List.getElem?_set_ne hcol,
        ← List.getD_eq_getElem?_getD]
    · rw [List.set_eq_of_length_le (by omega)]
  · have hne2 : ty.toNat ≠ b.toNat := by omega
    rw [List.getD_eq_getElem?_getD
          (List.set tm ty.toNat ((tm.getD ty.toNat []).set tx.toNat c)) b.toNat [],
      List.getElem?_set_ne hne2,
      ← List.getD_eq_getElem?_getD]

/-! ## C4 — dash-gate contact -/

theorem destroy_gate_player (w : World) (tx ty : ℤ) :
    (destroy_gate w tx ty).player = w.player := by
  unfold destroy_gate
  split <;> rfl

theorem destroy_gate_tilemap (w : World) (tx ty : ℤ) (h : cellAt w.tilemap tx ty = '|') :
    (destroy_gate w tx ty).tilemap = setCell w.tilemap tx ty ' ' := by
  unfold destroy_gate
  rw [if_pos h]

theorem horizScan_singleton_gate (da : Bool) (pw : ℤ) (r : Rect) (gx gy : ℤ) (x vx : ℚ) :
    horizScan da pw r [(gx, gy, '|')] x vx =
      if da then (x, vx, some (gx, gy))
      else if r.collide (tileRect gx gy) then
        ((if vx > 0 then qsub (qofInt (tileRect gx gy).left) (qdiv (qofInt pw) 2)
          else if vx < 0 then qadd (qofInt (tileRect gx gy).right) (qdiv (qofInt pw) 2)
          else x), (0 : ℚ), none)
      else (x, vx, none) := by
  cases da <;> simp [horizScan, solid]

/-- C4 (amended) — gate contact for a single queried gate behaves as
claimed; when several gates are contacted in one frame only the LAST
gate in the query's row-major order is destroyed (see the
counterexample), because the loop overwrites one `collided_gate` slot.

When the horizontal pass's tile query returns exactly one tile, a gate
at `(gx, gy)`: while a dash is active that gate cell is rewritten to
empty, every other cell is untouched, and the player's position advances
by the full `vx*dt` with `vx` preserved (no wall correction); with no
dash active the grid is unchanged, and an actual rect overlap snaps the
player to the tile edge and zeroes `vx`, exactly like solid ground. -/
theorem C4_gate_contact (dt : ℚ) (w : World) (gx gy : ℤ)
    (hq : tiles_in_aabb w.tilemap (horizQueryRect dt w.player) = [(gx, gy, '|')]) :
    (w.player.dash_t > 0 →
      (playerMoveH dt w).tilemap = setCell w.tilemap gx gy ' ' ∧
      cellAt (playerMoveH dt w).tilemap gx gy = ' ' ∧
      (∀ a b : ℤ, 0 ≤ a → 0 ≤ b → ¬(a = gx ∧ b = gy) →
        cellAt (playerMoveH dt w).tilemap a b = cellAt w.tilemap a b) ∧
      (playerMoveH dt w).player.x = qadd w.player.x (qmul w.player.vx dt) ∧
      (playerMoveH dt w).player.vx = w.player.vx) ∧
    (¬ w.player.dash_t > 0 →
      (playerMoveH dt w).tilemap = w.tilemap ∧
      ((playerRectAt (qadd w.player.x (qmul w.player.vx dt)) w.player.y
          w.player.w w.player.h).collide (tileRect gx gy) = true →
        (w.player.vx > 0 →
          (playerMoveH dt w).player.x
            = qsub (qofInt (tileRect gx gy).left) (qdiv (qofInt w.player.w) 2)) ∧
        (w.player.vx < 0 →
          (playerMoveH dt w).player.x
            = qadd (qofInt (tileRect gx gy).right) (qdiv (qofInt w.player.w) 2)) ∧
        (playerMoveH dt w).player.vx = 0)) := by
  have hmem : (gx, gy, '|') ∈ tiles_in_aabb w.tilemap (horizQueryRect dt w.player) := by
    rw [hq]
    exact List.mem_singleton_self _
  obtain ⟨hcell, -, hgx, hgy⟩ := tiles_in_aabb_sound hmem
  have hq' : tiles_in_aabb w.tilemap
      ((playerRectAt (qadd w.player.x (qmul w.player.vx dt)) w.player.y w.player.w
        w.player.h).inflate 2 (-2)) = [(gx, gy, '|')] := hq
  constructor
  · intro hd
    have hcne : cellAt w.tilemap gx gy ≠ ' ' := by rw [hcell]; decide
    have hbounds := cellAt_ne_blank_bounds hcne
    have htm : (playerMoveH dt w).tilemap = setCell w.tilemap gx gy ' ' := by
      simp only [playerMoveH, hq', horizScan_singleton_gate, decide_eq_true hd, if_true]
      exact destroy_gate_tilemap _ gx gy hcell
    refine ⟨htm, ?_, ?_, ?_, ?_⟩
    · rw [htm]
      exact cellAt_setCell_self hbounds.1 hbounds.2
    · intro a b ha hb hne
      rw [htm]
      exact cellAt_setCell_ne ha hb hgx hgy hne
    · simp only [playerMoveH, hq', horizScan_singleton_gate, decide_eq_true hd, if_true,
        applyGate, destroy_gate_player]
    · simp only [playerMoveH, hq', horizScan_singleton_gate, decide_eq_true hd, if_true,
        applyGate, destroy_gate_player]
  · intro hd
    have hda : decide (w.player.dash_t > 0) = false := decide_eq_false hd
    by_cases hc : (playerRectAt (qadd w.player.x (qmul w.player.vx dt)) w.player.y
        w.player.w w.player.h).collide (tileRect gx gy) = true
    · refine ⟨?_, fun _ => ⟨?_, ?_, ?_⟩⟩
      · simp only [playerMoveH, hq', horizScan_singleton_gate, hda, Bool.false_eq_true,
          if_false, hc, if_true, applyGate]
      · intro hvp
        simp only [playerMoveH, hq', horizScan_singleton_gate, hda, Bool.false_eq_true,
          if_false, hc, if_true, applyGate]
        rw [if_pos hvp]
      · intro hvn
        have hvp : ¬ w.player.vx > 0 := by
          intro h
          exact absurd (lt_trans hvn h) (lt_irrefl _)
        simp only [playerMoveH, hq', horizScan_singleton_gate, hda, Bool.false_eq_true,
          if_false, hc, if_true, applyGate]
        rw [if_neg hvp, if_pos hvn]
      · simp only [playerMoveH, hq', horizScan_singleton_gate, hda, Bool.false_eq_true,
          if_false, hc, if_true, applyGate]
    · have hc' : (playerRectAt (qadd w.player.x (qmul w.player.vx dt)) w.player.y
          w.player.w w.player.h).collide (tileRect gx gy) = false := by
        exact Bool.not_eq_true _ ▸ eq_false_of_ne_true hc
      refine ⟨?_, fun hcc => absurd hcc hc⟩
      simp only [playerMoveH, hq', horizScan_singleton_gate, hda, Bool.false_eq_true,
        if_false, hc', if_false, applyGate]

/-- C4 counterexample — with two stacked gates contacted in the same
dashing frame, both appear in the horizontal pass's query, yet only the
later-enumerated gate `(4, 2)` is destroyed; the gate at `(4, 1)` was
equally contacted during the dash but survives, contradicting the
claim's "exactly that one gate tile is set to empty" for its contact. -/
theorem C4_gate_contact_counterexample :
    c4World.player.dash_t > 0 ∧
    (4, 1, '|') ∈ tiles_in_aabb c4World.tilemap (horizQueryRect dt60 c4World.player) ∧
    (4, 2, '|') ∈ tiles_in_aabb c4World.tilemap (horizQueryRect dt60 c4World.player) ∧
    cellAt (playerMoveH dt60 c4World).tilemap 4 1 = '|' ∧
    cellAt (playerMoveH dt60 c4World).tilemap 4 2 = ' ' ∧
    (playerMoveH dt60 c4World).player.vx = 1150 := by
  decide

/-- C4 witness: the amended theorem applied at the single-gate worlds —
a dashing contact empties the gate and keeps the dash velocity, and a
non-dashing walk into the same gate snaps to its left edge and zeroes
`vx`. -/
theorem C4_gate_contact_witness :
    ((playerMoveH dt60 c4OneGateWorld).tilemap = setCell c4OneGateWorld.tilemap 4 2 ' ' ∧
     (playerMoveH dt60 c4OneGateWorld).player.vx = c4OneGateWorld.player.vx) ∧
    ((playerMoveH dt60 c4NoDashWorld).tilemap = c4NoDashWorld.tilemap ∧
     (playerMoveH dt60 c4NoDashWorld).player.x
       = qsub (qofInt (tileRect 4 2).left) (qdiv (qofInt c4NoDashWorld.player.w) 2) ∧
     (playerMoveH dt60 c4NoDashWorld).player.vx = 0) := by
  refine ⟨⟨?_, ?_⟩, ?_, ?_, ?_⟩
  · exact ((C4_gate_contact dt60 c4OneGateWorld 4 2 (by decide)).1 (by decide)).1
  · exact ((C4_gate_contact dt60 c4OneGateWorld 4 2 (by decide)).1 (by decide)).2.2.2.2
  · exact ((C4_gate_contact dt60 c4NoDashWorld 4 2 (by decide)).2 (by decide)).1
  · exact (((C4_gate_contact dt60 c4NoDashWorld 4 2 (by decide)).2 (by decide)).2
      (by decide)).1 (by decide)
  · exact (((C4_gate_contact dt60 c4NoDashWorld 4 2 (by decide)).2 (by decide)).2
      (by decide)).2.2
